import Mathlib

/-!
# Personal Finance Tracker: embedding of the ledger code

The repository holds two near-identical Qt windows, `FInanceTracker`
(`financetracker.cpp`) and `MainWindow` (`mainwindow.h`).  Each slot of each class is
translated below as a function on an explicit window state.

Modelling conventions.

* A `double` is NaN, an infinity, or a rational with a 53-bit significand (`Double`).
  Floating-point arithmetic is not computed by the embedding: SQLite's `SUM` and the
  subtraction of the balance are fields of `QtEnv`, like the text conversions.
* A NaN bound to a statement is stored as NULL by SQLite; in a row, `Double.nan` stands for
  NULL.
* The SQLite table `transactions` is a list of rows in rowid order together with the
  `sqlite_sequence` counter that `AUTOINCREMENT` maintains.
* Text conversions done by Qt (`QString::toDouble`, `QString::toInt`, number formatting)
  are fields of `QtEnv`, so every theorem holds for all behaviours of those functions.
* A statement executed by a slot may fail for reasons outside the program; the argument
  `fault : Option String` of a slot carries the driver error text of such a failure.
* Style sheets, layouts and chart rendering are not represented.
-/

namespace Finance

/-! ## Qt values -/

/-- The icon of a `QMessageBox`. -/
inductive Icon where
  | information
  | warning
  | critical
deriving DecidableEq

/-- A message box shown to the user: `QMessageBox::warning(this, title, text)` and so on. -/
structure MessageBox where
  icon : Icon
  title : String
  text : String
deriving DecidableEq

/-- Whether the rational `q` is a binary floating-point number with a 53-bit significand.
Every finite `double` is one (the exponent range is not represented). -/
def isDouble (q : ℚ) : Prop := ∃ m e : ℤ, m.natAbs < 2 ^ 53 ∧ q = m * (2 : ℚ) ^ e

/-- A value of the C++ type `double`. -/
inductive Double where
  | nan
  | posInf
  | negInf
  | num (q : ℚ) (h : isDouble q)
deriving DecidableEq

/-- The `double` 0. -/
def Double.zero : Double := .num 0 ⟨0, 0, by decide, by simp⟩

/-- The C++ comparison `x <= 0`: false for NaN. -/
def Double.leZero : Double → Bool
  | .nan => false
  | .posInf => false
  | .negInf => true
  | .num q _ => decide (q ≤ 0)

/-- The comparison `x > 0`: false for NaN. -/
def Double.pos : Double → Bool
  | .nan => false
  | .posInf => true
  | .negInf => false
  | .num q _ => decide (0 < q)

/-- `qIsNaN(x)`. -/
def Double.isNaN : Double → Bool
  | .nan => true
  | _ => false

/-- Neither NaN nor an infinity. -/
def Double.isFinite : Double → Bool
  | .num _ _ => true
  | _ => false

/-- The function `qAbs` on a `double`. -/
def Double.abs : Double → Double
  | .nan => .nan
  | .posInf => .posInf
  | .negInf => .posInf
  | .num q h => .num |q| (by
      obtain ⟨m, e, hm, rfl⟩ := h
      exact ⟨|m|, e, by rw [Int.natAbs_abs]; exact hm, by
        rw [abs_mul, abs_of_pos (zpow_pos (by norm_num : (0 : ℚ) < 2) e), Int.cast_abs]⟩)

/-- The exact value of a finite double. -/
def Double.toRat : Double → Option ℚ
  | .num q _ => some q
  | _ => none

/-- Conversions and floating-point operations supplied by the libraries. -/
structure QtEnv where
  /-- `QString::toDouble()`. -/
  toDouble : String → Double
  /-- `QString::toInt()`. -/
  toInt : String → Int
  /-- `QVariant(qlonglong).toString()`. -/
  intToString : Int → String
  /-- `QVariant(qlonglong).toDouble()`. -/
  ofInt : Int → Double
  /-- `QVariant(double).toString()`. -/
  doubleToString : Double → String
  /-- `QLocale(Indonesian, Indonesia).toCurrencyString(amount, symbol)`. -/
  toCurrencyString : Double → String → String
  /-- `QString::number(x, 'f', 2)`, also `QString::arg(x, 0, 'f', 2)`. -/
  numberF2 : Double → String
  /-- SQLite's aggregate `SUM` over the non-NULL REAL values of one group, in scan order: a
  floating-point sum. -/
  sum : List Double → Double
  /-- The `double` subtraction `x - y`. -/
  sub : Double → Double → Double

/-- A calendar date as held by `QDateEdit`. -/
structure QDate where
  year : Nat
  month : Nat
  day : Nat
deriving DecidableEq

/-- The decimal digit character of `n % 10`. -/
def digitChar (n : Nat) : Char := Char.ofNat (48 + n % 10)

/-- The format field `yyyy`: the year as at least four digits. -/
def yyyy (y : Nat) : List Char :=
  if y < 10000 then [digitChar (y / 1000), digitChar (y / 100), digitChar (y / 10), digitChar y]
  else Nat.toDigits 10 y

/-- The format fields `MM` and `dd`: a number below 100 as two digits. -/
def twoDigits (n : Nat) : List Char := [digitChar (n / 10), digitChar n]

/-- `QDate::toString("yyyy-MM-dd")` of a valid date (a `QDateEdit` holds no other). -/
def QDate.toString (d : QDate) : String :=
  String.mk (yyyy d.year ++ [Char.ofNat 45] ++ twoDigits d.month ++ [Char.ofNat 45] ++ twoDigits d.day)

/-- Whether the date `a` is chronologically earlier than the date `b`. -/
def QDate.earlier (a b : QDate) : Prop :=
  a.year < b.year
    ∨ (a.year = b.year ∧ (a.month < b.month ∨ (a.month = b.month ∧ a.day < b.day)))

/-- A calendar date with a four-digit year: year 0001..9999, month 1..12, day 1..31 (every
valid date of those years is one). -/
def QDate.fourDigitYear (d : QDate) : Prop :=
  1 ≤ d.year ∧ d.year ≤ 9999 ∧ 1 ≤ d.month ∧ d.month ≤ 12 ∧ 1 ≤ d.day ∧ d.day ≤ 31

/-- A value of a result column, `QSqlQuery::value(i)`. -/
inductive QVariant where
  | invalid
  /-- The value of a column that is NULL. -/
  | null
  | int (i : Int)
  | text (s : String)
  | real (x : Double)
deriving DecidableEq

/-- `QVariant::toString()`. -/
def QVariant.toString (env : QtEnv) : QVariant → String
  | .invalid => ""
  | .null => ""
  | .int i => env.intToString i
  | .text s => s
  | .real x => env.doubleToString x

/-- `QVariant::toDouble()`. -/
def QVariant.toDouble (env : QtEnv) : QVariant → Double
  | .invalid => Double.zero
  | .null => Double.zero
  | .int i => env.ofInt i
  | .text s => env.toDouble s
  | .real x => x

/-- `QSqlQuery::value(i)` on the current record. -/
def value (record : List QVariant) (i : Nat) : QVariant := record.getD i QVariant.invalid

/-! ## The table `transactions` -/

/-- One row of
`transactions(id INTEGER PRIMARY KEY AUTOINCREMENT, date TEXT, type TEXT, category TEXT,
amount REAL, description TEXT)`.  In `amount`, `Double.nan` stands for NULL: SQLite stores
a NaN as NULL. -/
structure Row where
  id : Int
  date : String
  type : String
  category : String
  amount : Double
  description : String
deriving DecidableEq

/-- The connection `db` with the content of `finance.db`. -/
structure Db where
  /-- Whether `db.open()` succeeded. -/
  isOpen : Bool
  /-- The rows of `transactions`, in rowid order. -/
  rows : List Row
  /-- The `sqlite_sequence` entry of `transactions`: the largest rowid ever assigned. -/
  seq : Int
  /-- Whether the table was created with `amount REAL NOT NULL`: so by the `CREATE TABLE` of
  `MainWindow::setupDatabase`, not so by that of `FInanceTracker::setupDatabase`. -/
  amountNotNull : Bool

/-- The store before any record was created. -/
def Db.empty (isOpen amountNotNull : Bool) : Db := ⟨isOpen, [], 0, amountNotNull⟩

namespace Sql

/-- The largest rowid SQLite can assign. -/
def maxRowid : Int := 9223372036854775807

/-- Error text of a statement run on a closed connection. -/
def notOpenText : String := "database not open"

/-- Error text of SQLITE_FULL. -/
def fullText : String := "database or disk is full"

/-- Error text of a NULL in the column `amount REAL NOT NULL`. -/
def notNullText : String := "NOT NULL constraint failed: transactions.amount"

/-- The largest rowid now in the table, 0 when it is empty. -/
def largestRowid (rows : List Row) : Int := rows.foldl (fun m r => max m r.id) 0

/-- Statement
`INSERT INTO transactions (date, type, category, amount, description) VALUES (?, ?, ?, ?, ?)`.
With `AUTOINCREMENT` the new rowid is one more than the largest rowid that ever existed
in the table, and the insert fails once that is `maxRowid`.  A NaN amount is bound as NULL,
which a column declared `NOT NULL` refuses. -/
def insert (db : Db) (fault : Option String) (date type category : String) (amount : Double)
    (description : String) : Except String Db :=
  if db.isOpen then
    match fault with
    | some e => .error e
    | none =>
      if db.amountNotNull && amount.isNaN then .error notNullText
      else
        let last := max db.seq (largestRowid db.rows)
        if maxRowid ≤ last then .error fullText
        else .ok { db with rows := db.rows ++ [⟨last + 1, date, type, category, amount, description⟩],
                           seq := last + 1 }
  else .error notOpenText

/-- Statement `DELETE FROM transactions WHERE id = ?`. -/
def delete (db : Db) (fault : Option String) (id : Int) : Except String Db :=
  if db.isOpen then
    match fault with
    | some e => .error e
    | none => .ok { db with rows := db.rows.filter (fun r => r.id ≠ id) }
  else .error notOpenText

/-- A REAL value as a result column: NULL for NaN. -/
def realValue (x : Double) : QVariant := if x.isNaN then .null else .real x

/-- The columns of `SELECT *`. -/
def star (r : Row) : List QVariant :=
  [.int r.id, .text r.date, .text r.type, .text r.category, realValue r.amount,
   .text r.description]

/-- The columns of `SELECT date, type, category, amount, description`. -/
def exportColumns (r : Row) : List QVariant :=
  [.text r.date, .text r.type, .text r.category, realValue r.amount, .text r.description]

/-- The result of a query: nothing on a closed connection. -/
def result (db : Db) (records : List (List QVariant)) : List (List QVariant) :=
  if db.isOpen then records else []

/-- Clause `ORDER BY date DESC` (text comparison, equal dates keep rowid order). -/
def orderByDateDesc (rows : List Row) : List Row :=
  rows.insertionSort (fun a b => b.date ≤ a.date)

/-- Clause `ORDER BY date` (text comparison, equal dates keep rowid order). -/
def orderByDate (rows : List Row) : List Row :=
  rows.insertionSort (fun a b => a.date ≤ b.date)

instance : IsTotal Row (fun a b => b.date ≤ a.date) := ⟨fun a b => le_total b.date a.date⟩

instance : IsTrans Row (fun a b => b.date ≤ a.date) :=
  ⟨fun _ _ _ hab hbc => le_trans hbc hab⟩

instance : IsTotal Row (fun a b => a.date ≤ b.date) := ⟨fun a b => le_total a.date b.date⟩

instance : IsTrans Row (fun a b => a.date ≤ b.date) :=
  ⟨fun _ _ _ hab hbc => le_trans hab hbc⟩

/-- Query `SELECT * FROM transactions ORDER BY date DESC`. -/
def selectAllOrderByDateDesc (db : Db) : List (List QVariant) :=
  result db ((orderByDateDesc db.rows).map star)

/-- Query `SELECT date, type, category, amount, description FROM transactions`: a scan of
the table in rowid order. -/
def selectExport (db : Db) : List (List QVariant) :=
  result db (db.rows.map exportColumns)

/-- Query `SELECT date, type, category, amount, description FROM transactions ORDER BY date`. -/
def selectExportOrderByDate (db : Db) : List (List QVariant) :=
  result db ((orderByDate db.rows).map exportColumns)

/-- The groups of `GROUP BY key`: the distinct keys in ascending order. -/
def groupKeys (key : Row → String) (rows : List Row) : List String :=
  ((rows.map key).dedup).insertionSort (fun a b => a ≤ b)

/-- The amounts that `SUM(amount)` adds for the group `k`: those of the rows of the group,
in rowid order, the NULL ones left out. -/
def groupAmounts (key : Row → String) (rows : List Row) (k : String) : List Double :=
  ((rows.filter (fun r => key r = k)).map Row.amount).filter (fun x => !x.isNaN)

/-- Aggregate `SUM(amount)` over the rows of the group `k`: NULL when the group has no
amount that is not NULL, else the floating-point sum that SQLite computes. -/
def sumAmount (env : QtEnv) (key : Row → String) (rows : List Row) (k : String) : QVariant :=
  if groupAmounts key rows k = [] then .null else realValue (env.sum (groupAmounts key rows k))

/-- What `query.value(1).toDouble()` reads from `SUM(amount)` of the group `k`: the sum, and
0.0 when the sum is NULL. -/
def sumAsDouble (env : QtEnv) (key : Row → String) (rows : List Row) (k : String) : Double :=
  (sumAmount env key rows k).toDouble env

/-- Clause `SELECT key, SUM(amount) ... GROUP BY key` over the given rows. -/
def groupSum (env : QtEnv) (key : Row → String) (rows : List Row) : List (List QVariant) :=
  (groupKeys key rows).map (fun k => [.text k, sumAmount env key rows k])

/-- Query `SELECT type, SUM(amount) FROM transactions GROUP BY type`. -/
def selectSumByType (env : QtEnv) (db : Db) : List (List QVariant) :=
  result db (groupSum env Row.type db.rows)

/-- Query
`SELECT category, SUM(amount) FROM transactions WHERE type='Expense' GROUP BY category`. -/
def selectExpenseSumByCategory (env : QtEnv) (db : Db) : List (List QVariant) :=
  result db (groupSum env Row.category (db.rows.filter (fun r => r.type = "Expense")))

end Sql

/-! ## The window state shared by both classes -/

/-- The members of `FInanceTracker` and of `MainWindow` (both classes declare the same). -/
structure Window where
  db : Db
  /-- The cell texts of `transactionTable`, one list of six cells per table row. -/
  transactionTable : List (List String)
  /-- Member `transactionTable->currentRow()`, -1 when no row is current. -/
  currentRow : Int
  amountEdit : String
  descriptionEdit : String
  /-- Member `categoryCombo->currentText()`. -/
  categoryCombo : String
  /-- Member `typeCombo->currentText()`. -/
  typeCombo : String
  dateEdit : QDate
  totalIncomeLabel : String
  totalExpenseLabel : String
  balanceLabel : String
  /-- The series of `pieChart`, each a list of slices (label, value). -/
  pieChart : List (List (String × Double))
  totalIncome : Double
  totalExpense : Double
  /-- The message boxes shown so far, oldest first. -/
  messages : List MessageBox

/-- Shows a message box. -/
def Window.messageBox (w : Window) (icon : Icon) (title text : String) : Window :=
  { w with messages := w.messages ++ [⟨icon, title, text⟩] }

/-- Cell text `transactionTable->item(row, col)->text()`; the empty text where the table has
no such cell (Qt keeps the current row inside the table, so `deleteTransaction` never asks
for one). -/
def Window.itemText (w : Window) (row : Int) (col : Nat) : String :=
  (w.transactionTable.getD row.toNat []).getD col ""

/-- The user makes `row` the current row of the table; a row that does not exist leaves
no current row. -/
def Window.selectRow (w : Window) (row : Int) : Window :=
  { w with currentRow := if 0 ≤ row ∧ row < w.transactionTable.length then row else -1 }

/-- The loop of `updateSummary` on the pair (totalIncome, totalExpense), started at (0, 0). -/
def totals (env : QtEnv) (records : List (List QVariant)) : Double × Double :=
  records.foldl
    (fun p query =>
      if (value query 0).toString env = "Income" then ((value query 1).toDouble env, p.2)
      else (p.1, (value query 1).toDouble env))
    (Double.zero, Double.zero)

/-- Method `QPieSeries::append(label, value)`: Qt Charts adds no slice for a value that is
NaN or infinite, and `QPieSlice::setValue` keeps `qAbs(value)`. -/
def QPieSeries.append (series : List (String × Double)) (label : String) (value : Double) :
    List (String × Double) :=
  if value.isFinite then series ++ [(label, value.abs)] else series

/-- The sum of `amount` over the records of kind `k` as an exact number: the sum of the
values of the stored amounts (those that are finite). -/
def exactSum (rows : List Row) (k : String) : ℚ :=
  (((rows.filter (fun r => r.type = k)).map Row.amount).filterMap Double.toRat).sum

/-- Whether a record of the listing (`SELECT *`) carries the given five fields. -/
def hasFields (date type category : String) (amount : Double) (description : String)
    (record : List QVariant) : Bool :=
  decide (record.drop 1 = [QVariant.text date, QVariant.text type, QVariant.text category,
    Sql.realValue amount, QVariant.text description])

/-- The number of comma-separated fields of a line of text. -/
def fieldCount (line : String) : Nat := line.data.count ',' + 1

/-- The header line of the export file. -/
def csvHeader : String := "Date,Type,Category,Amount,Description\n"

/-- The line of the export format for one record: the five stored fields, the amount as
decimal text (the empty text for an amount that is NULL), joined by commas and ended by a
newline, nothing quoted or escaped. -/
def csvLine (env : QtEnv) (r : Row) : String :=
  r.date ++ "," ++ r.type ++ "," ++ r.category ++ ","
    ++ (if r.amount.isNaN then "" else env.doubleToString r.amount) ++ ","
    ++ r.description ++ "\n"

/-- The members before the constructor body runs: `totalIncome(0), totalExpense(0)`, no
widget created yet, and `file` the content of `finance.db` with the connection closed. -/
def Window.initial (file : Db) : Window :=
  { db := { file with isOpen := false }, transactionTable := [], currentRow := -1,
    amountEdit := "", descriptionEdit := "", categoryCombo := "", typeCombo := "",
    dateEdit := ⟨0, 0, 0⟩, totalIncomeLabel := "", totalExpenseLabel := "", balanceLabel := "",
    pieChart := [], totalIncome := Double.zero, totalExpense := Double.zero, messages := [] }

/-- The user fills the form of the input section. -/
def Window.fillForm (w : Window) (date : QDate) (type category amount description : String) :
    Window :=
  { w with dateEdit := date, typeCombo := type, categoryCombo := category,
           amountEdit := amount, descriptionEdit := description }

/-- A user action on a window: filling the form and pressing the add button, or making a
table row current and pressing the delete button.  `fault` is the failure, if any, of the
statement the action executes. -/
inductive Op where
  | add (date : QDate) (type category amount description : String) (fault : Option String)
  | delete (row : Int) (fault : Option String)

/-- The ids of the records that `after` holds and `before` did not: the records created by
the step between them. -/
def createdIds (before after : Db) : List Int :=
  (after.rows.map Row.id).filter (fun i => i ∉ before.rows.map Row.id)

/-- The window after a sequence of user actions. -/
def run (step : Window → Op → Window) (w : Window) (ops : List Op) : Window :=
  ops.foldl step w

/-- The ids of all records created along a run, oldest first. -/
def history (step : Window → Op → Window) : Window → List Op → List Int
  | _, [] => []
  | w, op :: ops => createdIds w.db (step w op).db ++ history step (step w op) ops

/-- What one user action can do to the store: nothing, one insert of an amount that passed
the guard `amount <= 0`, or one delete by id. -/
def DbStep (db db2 : Db) : Prop :=
  db2 = db
  ∨ (∃ (fault : Option String) (date type category : String) (amount : Double)
      (description : String),
      amount.leZero = false
        ∧ Sql.insert db fault date type category amount description = .ok db2)
  ∨ (∃ (fault : Option String) (id : Int), Sql.delete db fault id = .ok db2)

/-- The invariant of the id assignment: `created` lists the ids assigned so far. -/
def IdsFresh (db : Db) (created : List Int) : Prop :=
  (db.rows.map Row.id).Nodup ∧ created.Nodup ∧ (∀ i ∈ created, i ≤ db.seq)
    ∧ (∀ r ∈ db.rows, r.id ∈ created)

/-! ## Class `FInanceTracker` (financetracker.cpp) -/

namespace FInanceTracker

/-- The file `finance.db` when the `CREATE TABLE` of `FInanceTracker::setupDatabase` makes the
table: no record, `amount REAL` without `NOT NULL`. -/
def newFile : Db := Db.empty false false

/-- Method `FInanceTracker::setupDatabase`; `openFault` is the failure of `db.open()`, if
any.  `CREATE TABLE IF NOT EXISTS` keeps an existing table and its rows. -/
def setupDatabase (openFault : Option String) (w : Window) : Window :=
  match openFault with
  | some e => w.messageBox Icon.critical "Database Error" e
  | none => { w with db := { w.db with isOpen := true } }

/-- Method `FInanceTracker::formatRupiah`. -/
def formatRupiah (env : QtEnv) (amount : Double) : String := env.toCurrencyString amount "Rp"

/-- Method `FInanceTracker::setupUI`: the initial content of the widgets. -/
def setupUI (today : QDate) (w : Window) : Window :=
  { w with totalIncomeLabel := "", totalExpenseLabel := "", balanceLabel := "",
           dateEdit := today, typeCombo := "Expense", categoryCombo := "Food",
           amountEdit := "", descriptionEdit := "", pieChart := [],
           transactionTable := [], currentRow := -1 }

/-- The six cell texts that the body of the loop of `loadTransactions` sets for one record. -/
def cells (env : QtEnv) (query : List QVariant) : List String :=
  (List.range 6).map (fun i =>
    if i = 4 then formatRupiah env ((value query i).toDouble env)
    else (value query i).toString env)

/-- Method `FInanceTracker::loadTransactions`. -/
def loadTransactions (env : QtEnv) (w : Window) : Window :=
  (Sql.selectAllOrderByDateDesc w.db).foldl
    (fun t query =>
      { t with transactionTable := t.transactionTable ++
          [(List.range 6).map (fun i =>
            if i = 4 then formatRupiah env ((value query i).toDouble env)
            else (value query i).toString env)] })
    { w with transactionTable := [], currentRow := -1 }

/-- Method `FInanceTracker::updateSummary`. -/
def updateSummary (env : QtEnv) (w : Window) : Window :=
  let t := (Sql.selectSumByType env w.db).foldl
    (fun t query =>
      if (value query 0).toString env = "Income"
      then { t with totalIncome := (value query 1).toDouble env }
      else { t with totalExpense := (value query 1).toDouble env })
    { w with totalIncome := Double.zero, totalExpense := Double.zero }
  let balance := env.sub t.totalIncome t.totalExpense
  { t with totalIncomeLabel := "Income: " ++ formatRupiah env t.totalIncome,
           totalExpenseLabel := "Expenses: " ++ formatRupiah env t.totalExpense,
           balanceLabel := "Balance: " ++ formatRupiah env balance }

/-- Method `FInanceTracker::updateChart`. -/
def updateChart (env : QtEnv) (w : Window) : Window :=
  let series := (Sql.selectExpenseSumByCategory env w.db).foldl
    (fun series query =>
      QPieSeries.append series
        ((value query 0).toString env ++ " (" ++
          formatRupiah env ((value query 1).toDouble env) ++ ")")
        ((value query 1).toDouble env))
    []
  { w with pieChart := [series] }

/-- Method `FInanceTracker::addTransaction`. -/
def addTransaction (env : QtEnv) (fault : Option String) (w : Window) : Window :=
  let date := w.dateEdit.toString
  let type := w.typeCombo
  let category := w.categoryCombo
  let amount := env.toDouble w.amountEdit
  let desc := w.descriptionEdit
  if amount.leZero then
    w.messageBox Icon.warning "Input Error" "Please enter a valid amount."
  else
    match Sql.insert w.db fault date type category amount desc with
    | .ok db =>
      updateChart env (updateSummary env (loadTransactions env
        { w with db := db, amountEdit := "", descriptionEdit := "" }))
    | .error _ => w

/-- Method `FInanceTracker::deleteTransaction`. -/
def deleteTransaction (env : QtEnv) (fault : Option String) (w : Window) : Window :=
  let row := w.currentRow
  if row < 0 then w
  else
    let id := env.toInt (w.itemText row 0)
    match Sql.delete w.db fault id with
    | .ok db => updateChart env (updateSummary env (loadTransactions env { w with db := db }))
    | .error _ => w

/-- Method `FInanceTracker::exportToCSV`; `filename` is the answer of the file dialog and
`canOpen` whether the file could be opened for writing.  The second component is the text
written to the file. -/
def exportToCSV (env : QtEnv) (filename : String) (canOpen : Bool) (w : Window) :
    Window × Option String :=
  if filename = "" then (w, none)
  else if canOpen then
    let out := (Sql.selectExport w.db).foldl
      (fun out query =>
        out ++ (value query 0).toString env ++ "," ++ (value query 1).toString env ++ ","
          ++ (value query 2).toString env ++ "," ++ (value query 3).toString env ++ ","
          ++ (value query 4).toString env ++ "\n")
      "Date,Type,Category,Amount,Description\n"
    (w.messageBox Icon.information "Success" ("Data exported to " ++ filename), some out)
  else (w, none)

/-- The constructor `FInanceTracker::FInanceTracker`. -/
def create (env : QtEnv) (today : QDate) (openFault : Option String) (file : Db) : Window :=
  updateChart env (updateSummary env (loadTransactions env
    (setupUI today (setupDatabase openFault (Window.initial file)))))

/-- One user action on a `FInanceTracker` window. -/
def step (env : QtEnv) (w : Window) : Op → Window
  | .add date type category amount description fault =>
    addTransaction env fault (w.fillForm date type category amount description)
  | .delete row fault => deleteTransaction env fault (w.selectRow row)

end FInanceTracker

/-! ## Class `MainWindow` (mainwindow.h) -/

namespace MainWindow

/-- The file `finance.db` when the `CREATE TABLE` of `MainWindow::setupDatabase` makes the
table: no record, `amount REAL NOT NULL`. -/
def newFile : Db := Db.empty false true

/-- Method `MainWindow::setupDatabase`; `openFault` is the failure of `db.open()`, if any.
`CREATE TABLE IF NOT EXISTS` keeps an existing table and its rows; the table `categories`
is created and never used. -/
def setupDatabase (openFault : Option String) (w : Window) : Window :=
  match openFault with
  | some e => w.messageBox Icon.critical "Database Error" ("Failed to open database: " ++ e)
  | none => { w with db := { w.db with isOpen := true } }

/-- Method `MainWindow::setupUI`: the initial content of the widgets. -/
def setupUI (today : QDate) (w : Window) : Window :=
  { w with totalIncomeLabel := "Income: $0.00", totalExpenseLabel := "Expenses: $0.00",
           balanceLabel := "Balance: $0.00",
           dateEdit := today, typeCombo := "Expense", categoryCombo := "Food",
           amountEdit := "", descriptionEdit := "", pieChart := [],
           transactionTable := [], currentRow := -1 }

/-- The six cell texts that the body of the loop of `loadTransactions` sets for one record. -/
def cells (env : QtEnv) (query : List QVariant) : List String :=
  [(value query 0).toString env, (value query 1).toString env,
   (value query 2).toString env, (value query 3).toString env,
   env.numberF2 ((value query 4).toDouble env), (value query 5).toString env]

/-- Method `MainWindow::loadTransactions`. -/
def loadTransactions (env : QtEnv) (w : Window) : Window :=
  (Sql.selectAllOrderByDateDesc w.db).foldl
    (fun t query =>
      { t with transactionTable := t.transactionTable ++
          [[(value query 0).toString env, (value query 1).toString env,
            (value query 2).toString env, (value query 3).toString env,
            env.numberF2 ((value query 4).toDouble env), (value query 5).toString env]] })
    { w with transactionTable := [], currentRow := -1 }

/-- Method `MainWindow::updateSummary`. -/
def updateSummary (env : QtEnv) (w : Window) : Window :=
  let t := (Sql.selectSumByType env w.db).foldl
    (fun t query =>
      let type := (value query 0).toString env
      let sum := (value query 1).toDouble env
      if type = "Income" then { t with totalIncome := sum } else { t with totalExpense := sum })
    { w with totalIncome := Double.zero, totalExpense := Double.zero }
  let balance := env.sub t.totalIncome t.totalExpense
  { t with totalIncomeLabel := "Income: $" ++ env.numberF2 t.totalIncome,
           totalExpenseLabel := "Expenses: $" ++ env.numberF2 t.totalExpense,
           balanceLabel := "Balance: $" ++ env.numberF2 balance }

/-- Method `MainWindow::updateChart`. -/
def updateChart (env : QtEnv) (w : Window) : Window :=
  let series := (Sql.selectExpenseSumByCategory env w.db).foldl
    (fun series query =>
      let category := (value query 0).toString env
      let amount := (value query 1).toDouble env
      QPieSeries.append series (category ++ " ($" ++ env.numberF2 amount ++ ")") amount)
    []
  { w with pieChart := [series] }

/-- Method `MainWindow::addTransaction`. -/
def addTransaction (env : QtEnv) (fault : Option String) (w : Window) : Window :=
  let date := w.dateEdit.toString
  let type := w.typeCombo
  let category := w.categoryCombo
  let amount := env.toDouble w.amountEdit
  let description := w.descriptionEdit
  if amount.leZero then
    w.messageBox Icon.warning "Invalid Input" "Please enter a valid amount."
  else
    match Sql.insert w.db fault date type category amount description with
    | .ok db =>
      updateChart env (updateSummary env (loadTransactions env
        { w with db := db, amountEdit := "", descriptionEdit := "" }))
    | .error e => w.messageBox Icon.critical "Database Error" e

/-- Method `MainWindow::deleteTransaction`. -/
def deleteTransaction (env : QtEnv) (fault : Option String) (w : Window) : Window :=
  let row := w.currentRow
  if row < 0 then
    w.messageBox Icon.warning "No Selection" "Please select a transaction to delete."
  else
    let id := env.toInt (w.itemText row 0)
    match Sql.delete w.db fault id with
    | .ok db => updateChart env (updateSummary env (loadTransactions env { w with db := db }))
    | .error _ => w

/-- Method `MainWindow::exportToCSV`; `filename` is the answer of the file dialog and
`canOpen` whether the file could be opened for writing.  The second component is the text
written to the file. -/
def exportToCSV (env : QtEnv) (filename : String) (canOpen : Bool) (w : Window) :
    Window × Option String :=
  if filename = "" then (w, none)
  else if !canOpen then
    (w.messageBox Icon.critical "Export Error" "Could not open file for writing.", none)
  else
    let out := (Sql.selectExportOrderByDate w.db).foldl
      (fun out query =>
        out ++ (value query 0).toString env ++ ","
          ++ (value query 1).toString env ++ ","
          ++ (value query 2).toString env ++ ","
          ++ (value query 3).toString env ++ ","
          ++ (value query 4).toString env ++ "\n")
      "Date,Type,Category,Amount,Description\n"
    (w.messageBox Icon.information "Export Success" "Transactions exported successfully!", some out)

/-- The constructor `MainWindow::MainWindow`. -/
def create (env : QtEnv) (today : QDate) (openFault : Option String) (file : Db) : Window :=
  updateChart env (updateSummary env (loadTransactions env
    (setupUI today (setupDatabase openFault (Window.initial file)))))

/-- One user action on a `MainWindow` window. -/
def step (env : QtEnv) (w : Window) : Op → Window
  | .add date type category amount description fault =>
    addTransaction env fault (w.fillForm date type category amount description)
  | .delete row fault => deleteTransaction env fault (w.selectRow row)

end MainWindow

/-! ## Sample data

Concrete inputs on which the embedding is evaluated, and a sample of the library functions:
decimal texts of natural numbers, "nan" and "inf" are parsed, and floating-point results
are rounded to the nearest double, ties to even. -/

/-- Rounding of an exact value to the nearest double, ties to even (IEEE 754 binary64):
exact on the integers below 2 ^ 53, the last place at 2 ^ -1074 or 52 binary places below
the leading one, an infinity from 2 ^ 1024 on. -/
def roundDouble (x : ℚ) : Double :=
  if h : x.den = 1 ∧ x.num.natAbs < 2 ^ 53 then
    .num x ⟨x.num, 0, h.2, by
      have hx := Rat.num_div_den x
      rw [h.1] at hx
      simpa using hx.symm⟩
  else
    let e : ℤ := max (Int.log 2 |x|) (-1022) - 52
    let y : ℚ := x / 2 ^ e
    let f : ℤ := ⌊y⌋
    let m : ℤ := if y - f < 1 / 2 then f else if 1 / 2 < y - f then f + 1
      else if f % 2 = 0 then f else f + 1
    if (2 : ℚ) ^ (1024 : ℤ) ≤ |(m : ℚ) * 2 ^ e| then (if 0 < x then .posInf else .negInf)
    else if hm : m.natAbs < 2 ^ 53 then .num (m * 2 ^ e) ⟨m, e, hm, rfl⟩
    else .num (m.sign * 2 ^ (e + 53)) ⟨m.sign, e + 53, by
      rw [Int.natAbs_sign]
      split <;> norm_num, rfl⟩

/-- The double nearest to the natural number `n`. -/
def Double.ofNat (n : Nat) : Double := roundDouble n

/-- The `double` addition `x + y`. -/
def Double.add : Double → Double → Double
  | .nan, _ => .nan
  | _, .nan => .nan
  | .posInf, .negInf => .nan
  | .negInf, .posInf => .nan
  | .posInf, _ => .posInf
  | _, .posInf => .posInf
  | .negInf, _ => .negInf
  | _, .negInf => .negInf
  | .num x _, .num y _ => roundDouble (x + y)

/-- The `double` negation `-x`. -/
def Double.neg : Double → Double
  | .nan => .nan
  | .posInf => .negInf
  | .negInf => .posInf
  | .num x _ => roundDouble (-x)

/-- A text for a double: an integer in decimal, another finite value as a fraction. -/
def Double.text : Double → String
  | .nan => "nan"
  | .posInf => "inf"
  | .negInf => "-inf"
  | .num x _ => if x.den = 1 then toString x.num else toString x.num ++ "/" ++ toString x.den

/-- The decimal natural number written by `s`, 0 when `s` is not all digits. -/
def sampleNat (s : String) : Nat :=
  if s.data.all Char.isDigit then s.data.foldl (fun n c => 10 * n + (c.toNat - 48)) 0 else 0

/-- A sample of the library functions.  Text that is not a number parses to 0, "nan" to NaN
and "inf" to infinity; `toInt` reads a 32-bit `int` and gives 0 beyond its range; `SUM` adds
the values one by one in scan order. -/
def sampleEnv : QtEnv where
  toDouble := fun s =>
    if s = "nan" then Double.nan else if s = "inf" then Double.posInf
    else Double.ofNat (sampleNat s)
  toInt := fun s => if sampleNat s < 2 ^ 31 then (sampleNat s : Int) else 0
  intToString := fun i => toString i
  ofInt := fun i => roundDouble i
  doubleToString := fun x => x.text
  toCurrencyString := fun x symbol => symbol ++ x.text
  numberF2 := fun x => x.text ++ ".00"
  sum := fun l => l.foldl Double.add Double.zero
  sub := fun x y => Double.add x (Double.neg y)

/-- Two adds, the later date first. -/
def laterFirst : List Op :=
  [Op.add ⟨2024, 2, 1⟩ "Expense" "Food" "50" "lunch" none,
   Op.add ⟨2024, 1, 1⟩ "Income" "Salary" "1000" "" none]

/-- The same add twice. -/
def duplicateAdds : List Op :=
  [Op.add ⟨2024, 1, 5⟩ "Expense" "Food" "50" "lunch" none,
   Op.add ⟨2024, 1, 5⟩ "Expense" "Food" "50" "lunch" none]

/-- A store with two records. -/
def sampleStore : Db :=
  ⟨true, [⟨1, "2024-02-01", "Expense", "Food", Double.ofNat 50, "lunch"⟩,
          ⟨2, "2024-01-01", "Income", "Salary", Double.ofNat 1000, ""⟩], 2, false⟩

/-- A window on the store `db` whose table shows `table`, no row current. -/
def windowOn (db : Db) (table : List (List String)) : Window :=
  { Window.initial db with db := db, transactionTable := table }

/-- A window on `sampleStore` showing its two records. -/
def sampleWindow : Window :=
  windowOn sampleStore
    [["1", "2024-02-01", "Expense", "Food", "50.00", "lunch"],
     ["2", "2024-01-01", "Income", "Salary", "1000.00", ""]]

/-- Adding Income 1000, then Expense 400. -/
def summaryAdds : List Op :=
  [Op.add ⟨2024, 1, 1⟩ "Income" "Salary" "1000" "" none,
   Op.add ⟨2024, 1, 2⟩ "Expense" "Food" "400" "" none]

/-- A further Expense 100. -/
def furtherExpense : Op := Op.add ⟨2024, 1, 3⟩ "Expense" "Bills" "100" "" none

/-- The store after `summaryAdds`. -/
def summaryStore : Db :=
  ⟨true, [⟨1, "2024-01-01", "Income", "Salary", Double.ofNat 1000, ""⟩,
          ⟨2, "2024-01-02", "Expense", "Food", Double.ofNat 400, ""⟩], 2, false⟩

/-- The store after `summaryAdds` and `furtherExpense`. -/
def summaryStore2 : Db :=
  ⟨true, [⟨1, "2024-01-01", "Income", "Salary", Double.ofNat 1000, ""⟩,
          ⟨2, "2024-01-02", "Expense", "Food", Double.ofNat 400, ""⟩,
          ⟨3, "2024-01-03", "Expense", "Bills", Double.ofNat 100, ""⟩], 3, false⟩

/-- Adding Expense/Food 50, Expense/Food 25, Expense/Transport 10 and one income. -/
def chartAdds : List Op :=
  [Op.add ⟨2024, 1, 1⟩ "Expense" "Food" "50" "" none,
   Op.add ⟨2024, 1, 2⟩ "Expense" "Food" "25" "" none,
   Op.add ⟨2024, 1, 3⟩ "Expense" "Transport" "10" "" none,
   Op.add ⟨2024, 1, 4⟩ "Income" "Salary" "1000" "" none]

/-- The store after `chartAdds`. -/
def chartStore : Db :=
  ⟨true, [⟨1, "2024-01-01", "Expense", "Food", Double.ofNat 50, ""⟩,
          ⟨2, "2024-01-02", "Expense", "Food", Double.ofNat 25, ""⟩,
          ⟨3, "2024-01-03", "Expense", "Transport", Double.ofNat 10, ""⟩,
          ⟨4, "2024-01-04", "Income", "Salary", Double.ofNat 1000, ""⟩], 4, false⟩

/-- A statement failure: the database file is locked by another process. -/
def lockedFault : Option String := some "database is locked"

/-- The double nearest to 0.1, bit pattern 0x3FB999999999999A. -/
def tenth : Double :=
  .num (3602879701896397 / 2 ^ 55) ⟨3602879701896397, -55, by decide, by norm_num⟩

/-- The double nearest to 0.2, bit pattern 0x3FC999999999999A. -/
def fifth : Double :=
  .num (3602879701896397 / 2 ^ 54) ⟨3602879701896397, -54, by decide, by norm_num⟩

/-- A store with the expenses 0.1 and 0.2. -/
def tenthsStore : Db :=
  ⟨true, [⟨1, "2024-01-01", "Expense", "Food", tenth, ""⟩,
          ⟨2, "2024-01-02", "Expense", "Food", fifth, ""⟩], 2, false⟩

/-- An expense whose amount text is "inf". -/
def infAdd : Op := Op.add ⟨2024, 1, 1⟩ "Expense" "Food" "inf" "" none

/-- An expense whose amount text is "nan". -/
def nanAdd : Op := Op.add ⟨2024, 3, 1⟩ "Expense" "Food" "nan" "lunch" none

/-- A store whose only record has an id beyond the range of a 32-bit `int`. -/
def wideStore : Db :=
  ⟨true, [⟨3000000000, "2024-01-01", "Expense", "Food", Double.ofNat 50, ""⟩], 3000000000, false⟩

/-! # Theorems -/

/-! ## Loops as closed forms -/

theorem foldl_table (c : List QVariant → List String) :
    ∀ (l : List (List QVariant)) (t : Window),
      l.foldl (fun t query => { t with transactionTable := t.transactionTable ++ [c query] }) t
        = { t with transactionTable := t.transactionTable ++ l.map c } := by
  intro l
  induction l with
  | nil => intro t; simp
  | cons a l ih => intro t; simp [ih]

theorem foldl_snoc {α β : Type} (c : α → β) :
    ∀ (l : List α) (init : List β),
      l.foldl (fun acc a => acc ++ [c a]) init = init ++ l.map c := by
  intro l
  induction l with
  | nil => intro init; simp
  | cons a l ih => intro init; simp [ih]

theorem foldl_totals (income : List QVariant → Bool) (sum : List QVariant → Double) :
    ∀ (l : List (List QVariant)) (t : Window),
      l.foldl (fun t query =>
          if income query = true then { t with totalIncome := sum query }
          else { t with totalExpense := sum query }) t
        = { t with
            totalIncome := (l.foldl (fun (p : Double × Double) query =>
              if income query = true then (sum query, p.2) else (p.1, sum query))
              (t.totalIncome, t.totalExpense)).1,
            totalExpense := (l.foldl (fun (p : Double × Double) query =>
              if income query = true then (sum query, p.2) else (p.1, sum query))
              (t.totalIncome, t.totalExpense)).2 } := by
  intro l
  induction l with
  | nil => intro t; simp
  | cons a l ih =>
    intro t
    rw [List.foldl_cons, ih]
    by_cases h : income a = true <;> simp [h]

/-- The loop of `updateChart`: the records whose value is finite give the slices. -/
theorem foldl_slices (label : List QVariant → String) (val : List QVariant → Double) :
    ∀ (l : List (List QVariant)) (init : List (String × Double)),
      l.foldl (fun series query => QPieSeries.append series (label query) (val query)) init
        = init ++ l.filterMap (fun query =>
            if (val query).isFinite then some (label query, (val query).abs) else none) := by
  intro l
  induction l with
  | nil => intro init; simp
  | cons a l ih =>
    intro init
    rw [List.foldl_cons, ih]
    by_cases h : (val a).isFinite = true <;> simp [QPieSeries.append, h]

namespace FInanceTracker

theorem loadTransactions_eq_ft (env : QtEnv) (w : Window) :
    loadTransactions env w =
      { w with transactionTable := (Sql.selectAllOrderByDateDesc w.db).map (cells env),
               currentRow := -1 } := by
  unfold loadTransactions
  exact (foldl_table (cells env) _ _).trans (by simp)

end FInanceTracker

namespace MainWindow

theorem loadTransactions_eq_mw (env : QtEnv) (w : Window) :
    loadTransactions env w =
      { w with transactionTable := (Sql.selectAllOrderByDateDesc w.db).map (cells env),
               currentRow := -1 } := by
  unfold loadTransactions
  exact (foldl_table (cells env) _ _).trans (by simp)

theorem updateSummary_eq_mw (env : QtEnv) (w : Window) :
    updateSummary env w =
      { w with
        totalIncome := (totals env (Sql.selectSumByType env w.db)).1,
        totalExpense := (totals env (Sql.selectSumByType env w.db)).2,
        totalIncomeLabel := "Income: $" ++ env.numberF2 (totals env (Sql.selectSumByType env w.db)).1,
        totalExpenseLabel :=
          "Expenses: $" ++ env.numberF2 (totals env (Sql.selectSumByType env w.db)).2,
        balanceLabel := "Balance: $" ++ env.numberF2
          (env.sub (totals env (Sql.selectSumByType env w.db)).1
            (totals env (Sql.selectSumByType env w.db)).2) } := by
  have h := foldl_totals (fun query => decide ((value query 0).toString env = "Income"))
    (fun query => (value query 1).toDouble env) (Sql.selectSumByType env w.db)
    { w with totalIncome := Double.zero, totalExpense := Double.zero }
  simp only [decide_eq_true_eq] at h
  unfold updateSummary
  simp only [h]
  rfl

theorem updateChart_eq_mw (env : QtEnv) (w : Window) :
    updateChart env w =
      { w with pieChart := [(Sql.selectExpenseSumByCategory env w.db).filterMap (fun query =>
          if ((value query 1).toDouble env).isFinite then
            some ((value query 0).toString env ++ " ($" ++
              env.numberF2 ((value query 1).toDouble env) ++ ")",
              ((value query 1).toDouble env).abs)
          else none)] } := by
  unfold updateChart
  simp only [foldl_slices, List.nil_append]

end MainWindow

namespace FInanceTracker

theorem updateSummary_eq_ft (env : QtEnv) (w : Window) :
    updateSummary env w =
      { w with
        totalIncome := (totals env (Sql.selectSumByType env w.db)).1,
        totalExpense := (totals env (Sql.selectSumByType env w.db)).2,
        totalIncomeLabel :=
          "Income: " ++ formatRupiah env (totals env (Sql.selectSumByType env w.db)).1,
        totalExpenseLabel :=
          "Expenses: " ++ formatRupiah env (totals env (Sql.selectSumByType env w.db)).2,
        balanceLabel := "Balance: " ++ formatRupiah env
          (env.sub (totals env (Sql.selectSumByType env w.db)).1
            (totals env (Sql.selectSumByType env w.db)).2) } := by
  have h := foldl_totals (fun query => decide ((value query 0).toString env = "Income"))
    (fun query => (value query 1).toDouble env) (Sql.selectSumByType env w.db)
    { w with totalIncome := Double.zero, totalExpense := Double.zero }
  simp only [decide_eq_true_eq] at h
  unfold updateSummary
  simp only [h]
  rfl

theorem updateChart_eq_ft (env : QtEnv) (w : Window) :
    updateChart env w =
      { w with pieChart := [(Sql.selectExpenseSumByCategory env w.db).filterMap (fun query =>
          if ((value query 1).toDouble env).isFinite then
            some ((value query 0).toString env ++ " (" ++
              formatRupiah env ((value query 1).toDouble env) ++ ")",
              ((value query 1).toDouble env).abs)
          else none)] } := by
  unfold updateChart
  simp only [foldl_slices, List.nil_append]

end FInanceTracker

/-! ## Grouping -/

namespace Sql

theorem mem_groupKeys (key : Row → String) (rows : List Row) (k : String) :
    k ∈ groupKeys key rows ↔ ∃ r ∈ rows, key r = k := by
  unfold groupKeys
  rw [(List.perm_insertionSort _ _).mem_iff, List.mem_dedup, List.mem_map]

theorem nodup_groupKeys (key : Row → String) (rows : List Row) :
    (groupKeys key rows).Nodup := by
  unfold groupKeys
  exact (List.perm_insertionSort _ _).nodup_iff.mpr (List.nodup_dedup _)

theorem groupAmounts_eq_nil (key : Row → String) (rows : List Row) (k : String)
    (h : ∀ r ∈ rows, key r ≠ k) : groupAmounts key rows k = [] := by
  unfold groupAmounts
  have : rows.filter (fun r => key r = k) = [] := by
    rw [List.filter_eq_nil_iff]
    intro r hr
    simpa using h r hr
  rw [this]
  rfl

/-- What is read from `SUM(amount)`: 0.0 for a group without an amount that is not NULL
and for a sum that is NaN (SQLite returns NULL), else the sum computed by SQLite. -/
theorem sumAsDouble_eq (env : QtEnv) (key : Row → String) (rows : List Row) (k : String) :
    sumAsDouble env key rows k
      = if groupAmounts key rows k = [] ∨ (env.sum (groupAmounts key rows k)).isNaN = true
        then Double.zero else env.sum (groupAmounts key rows k) := by
  unfold sumAsDouble sumAmount realValue
  by_cases h1 : groupAmounts key rows k = []
  · simp [h1, QVariant.toDouble]
  · by_cases h2 : (env.sum (groupAmounts key rows k)).isNaN = true
    · simp [h1, h2, QVariant.toDouble]
    · simp [h1, h2, QVariant.toDouble]

theorem sumAsDouble_eq_zero (env : QtEnv) (key : Row → String) (rows : List Row) (k : String)
    (h : ∀ r ∈ rows, key r ≠ k) : sumAsDouble env key rows k = Double.zero := by
  rw [sumAsDouble_eq, groupAmounts_eq_nil key rows k h]
  simp

theorem groupAmounts_expense (rows : List Row) (c : String) :
    groupAmounts Row.category (rows.filter (fun r => r.type = "Expense")) c
      = ((rows.filter (fun r => r.type = "Expense" ∧ r.category = c)).map Row.amount).filter
          (fun x => !x.isNaN) := by
  unfold groupAmounts
  rw [List.filter_filter]
  congr 2
  apply List.filter_congr
  intro r _
  simp only [Bool.decide_and]
  exact Bool.and_comm _ _

end Sql

theorem filterMap_ite {α β : Type} (p : α → Bool) (f : α → β) (l : List α) :
    l.filterMap (fun a => if p a = true then some (f a) else none) = (l.filter p).map f := by
  induction l with
  | nil => rfl
  | cons a l ih =>
    by_cases h : p a = true
    · simp [List.filterMap_cons, List.filter_cons, h, ih]
    · simp [List.filterMap_cons, List.filter_cons, h, ih]

theorem totals_loop (env : QtEnv) (S : String → QVariant) :
    ∀ (ks : List String) (p : Double × Double), (∀ k ∈ ks, k = "Income" ∨ k = "Expense") →
      (ks.map (fun k => [QVariant.text k, S k])).foldl
        (fun p query =>
          if (value query 0).toString env = "Income" then ((value query 1).toDouble env, p.2)
          else (p.1, (value query 1).toDouble env)) p
        = (if "Income" ∈ ks then (S "Income").toDouble env else p.1,
           if "Expense" ∈ ks then (S "Expense").toDouble env else p.2) := by
  intro ks
  induction ks with
  | nil => intro p _; simp
  | cons k ks ih =>
    intro p h
    have hk := h k (List.mem_cons_self _ _)
    have hks : ∀ k ∈ ks, k = "Income" ∨ k = "Expense" :=
      fun a ha => h a (List.mem_cons_of_mem _ ha)
    rw [List.map_cons, List.foldl_cons, ih _ hks]
    have hne : ("Expense" : String) ≠ "Income" := by decide
    rcases hk with hk | hk
    · subst hk
      simp [value, QVariant.toString, hne]
    · subst hk
      simp [value, QVariant.toString, hne, hne.symm]

theorem totals_groupSum (env : QtEnv) (rows : List Row)
    (h : ∀ r ∈ rows, r.type = "Income" ∨ r.type = "Expense") :
    totals env (Sql.groupSum env Row.type rows)
      = (Sql.sumAsDouble env Row.type rows "Income",
         Sql.sumAsDouble env Row.type rows "Expense") := by
  unfold totals Sql.groupSum
  rw [totals_loop env (Sql.sumAmount env Row.type rows)]
  · have hI : "Income" ∉ Sql.groupKeys Row.type rows →
        Sql.sumAsDouble env Row.type rows "Income" = Double.zero := by
      intro hn
      apply Sql.sumAsDouble_eq_zero
      intro r hr heq
      exact hn ((Sql.mem_groupKeys _ _ _).mpr ⟨r, hr, heq⟩)
    have hE : "Expense" ∉ Sql.groupKeys Row.type rows →
        Sql.sumAsDouble env Row.type rows "Expense" = Double.zero := by
      intro hn
      apply Sql.sumAsDouble_eq_zero
      intro r hr heq
      exact hn ((Sql.mem_groupKeys _ _ _).mpr ⟨r, hr, heq⟩)
    simp only [Sql.sumAsDouble] at hI hE ⊢
    by_cases h1 : "Income" ∈ Sql.groupKeys Row.type rows <;>
      by_cases h2 : "Expense" ∈ Sql.groupKeys Row.type rows <;>
      simp [h1, h2, hI, hE]
  · intro k hk
    obtain ⟨r, hr, rfl⟩ := (Sql.mem_groupKeys _ _ _).mp hk
    exact h r hr

theorem updateSummary_reads (env : QtEnv) (w : Window) (hopen : w.db.isOpen = true)
    (hkind : ∀ r ∈ w.db.rows, r.type = "Income" ∨ r.type = "Expense") :
    ((FInanceTracker.updateSummary env w).totalIncome
        = Sql.sumAsDouble env Row.type w.db.rows "Income"
      ∧ (FInanceTracker.updateSummary env w).totalExpense
        = Sql.sumAsDouble env Row.type w.db.rows "Expense")
    ∧ ((MainWindow.updateSummary env w).totalIncome
        = Sql.sumAsDouble env Row.type w.db.rows "Income"
      ∧ (MainWindow.updateSummary env w).totalExpense
        = Sql.sumAsDouble env Row.type w.db.rows "Expense") := by
  constructor
  · rw [FInanceTracker.updateSummary_eq_ft]
    simp [Sql.selectSumByType, Sql.result, hopen, totals_groupSum env _ hkind]
  · rw [MainWindow.updateSummary_eq_mw]
    simp [Sql.selectSumByType, Sql.result, hopen, totals_groupSum env _ hkind]

/-- Claim C4, amended: for every store (an open connection) whose records all have kind
Income or Expense, `updateSummary` of both classes sets `totalIncome` to what it reads from
`SUM(amount)` over the Income records and `totalExpense` to what it reads from `SUM(amount)`
over the Expense records: the double-precision sum `env.sum` that SQLite computes over the
amounts of the kind that are not NULL, in rowid order, and 0.0 when the kind has no such
amount or the sum is NaN. -/
theorem updateSummary_totals (env : QtEnv) (w : Window) (hopen : w.db.isOpen = true)
    (hkind : ∀ r ∈ w.db.rows, r.type = "Income" ∨ r.type = "Expense") :
    ((FInanceTracker.updateSummary env w).totalIncome
        = Sql.sumAsDouble env Row.type w.db.rows "Income"
      ∧ (FInanceTracker.updateSummary env w).totalExpense
        = Sql.sumAsDouble env Row.type w.db.rows "Expense")
    ∧ ((MainWindow.updateSummary env w).totalIncome
        = Sql.sumAsDouble env Row.type w.db.rows "Income"
      ∧ (MainWindow.updateSummary env w).totalExpense
        = Sql.sumAsDouble env Row.type w.db.rows "Expense")
    ∧ ∀ k, Sql.sumAsDouble env Row.type w.db.rows k
        = if ((w.db.rows.filter (fun r => r.type = k)).map Row.amount).filter
              (fun x => !x.isNaN) = []
            ∨ (env.sum (((w.db.rows.filter (fun r => r.type = k)).map Row.amount).filter
              (fun x => !x.isNaN))).isNaN = true
          then Double.zero
          else env.sum (((w.db.rows.filter (fun r => r.type = k)).map Row.amount).filter
              (fun x => !x.isNaN)) := by
  exact ⟨(updateSummary_reads env w hopen hkind).1, (updateSummary_reads env w hopen hkind).2,
    fun k => Sql.sumAsDouble_eq env Row.type w.db.rows k⟩

/-- Claim C5, amended: for every store (an open connection), the series built by
`updateChart` of both classes has exactly one slice for each category that has at least one
Expense record and whose `SUM(amount)` over its Expense records, as read by the program, is
finite (`cats` lists those categories without repetition); the label of the slice shows
that sum and the value of the slice is its magnitude `qAbs`; a category whose sum is
infinite gets no slice, and records of another kind add to no slice.  The sum is the
double-precision sum `env.sum` that SQLite computes over the amounts that are not NULL of
the Expense records of the category, and 0.0 when there is no such amount or the sum is
NaN. -/
theorem updateChart_breakdown (env : QtEnv) (w : Window) (hopen : w.db.isOpen = true) :
    ∃ cats : List String,
      cats.Nodup
      ∧ (∀ c, c ∈ cats ↔ (∃ r ∈ w.db.rows, r.type = "Expense" ∧ r.category = c)
          ∧ (Sql.sumAsDouble env Row.category
              (w.db.rows.filter (fun r => r.type = "Expense")) c).isFinite = true)
      ∧ (FInanceTracker.updateChart env w).pieChart = [cats.map (fun c =>
          (c ++ " (" ++ FInanceTracker.formatRupiah env
              (Sql.sumAsDouble env Row.category
                (w.db.rows.filter (fun r => r.type = "Expense")) c) ++ ")",
           (Sql.sumAsDouble env Row.category
              (w.db.rows.filter (fun r => r.type = "Expense")) c).abs))]
      ∧ (MainWindow.updateChart env w).pieChart = [cats.map (fun c =>
          (c ++ " ($" ++ env.numberF2
              (Sql.sumAsDouble env Row.category
                (w.db.rows.filter (fun r => r.type = "Expense")) c) ++ ")",
           (Sql.sumAsDouble env Row.category
              (w.db.rows.filter (fun r => r.type = "Expense")) c).abs))]
      ∧ ∀ c, Sql.sumAsDouble env Row.category
            (w.db.rows.filter (fun r => r.type = "Expense")) c
          = if ((w.db.rows.filter (fun r => r.type = "Expense" ∧ r.category = c)).map
                Row.amount).filter (fun x => !x.isNaN) = []
              ∨ (env.sum (((w.db.rows.filter (fun r => r.type = "Expense" ∧ r.category = c)).map
                Row.amount).filter (fun x => !x.isNaN))).isNaN = true
            then Double.zero
            else env.sum (((w.db.rows.filter (fun r => r.type = "Expense" ∧ r.category = c)).map
                Row.amount).filter (fun x => !x.isNaN)) := by
  refine ⟨(Sql.groupKeys Row.category (w.db.rows.filter (fun r => r.type = "Expense"))).filter
      (fun c => (Sql.sumAsDouble env Row.category
        (w.db.rows.filter (fun r => r.type = "Expense")) c).isFinite),
    (Sql.nodup_groupKeys _ _).filter _, ?_, ?_, ?_, ?_⟩
  · intro c
    rw [List.mem_filter, Sql.mem_groupKeys]
    apply and_congr_left
    intro _
    constructor
    · rintro ⟨r, hr, hc⟩
      rw [List.mem_filter] at hr
      exact ⟨r, hr.1, by simpa using hr.2, hc⟩
    · rintro ⟨r, hr, ht, hc⟩
      exact ⟨r, List.mem_filter.mpr ⟨hr, by simpa using ht⟩, hc⟩
  · rw [FInanceTracker.updateChart_eq_ft]
    simp only [Sql.selectExpenseSumByCategory, Sql.result, hopen, if_true, Sql.groupSum,
      List.filterMap_map]
    rw [← filterMap_ite]
    simp [Function.comp_def, value, QVariant.toString, Sql.sumAsDouble]
  · rw [MainWindow.updateChart_eq_mw]
    simp only [Sql.selectExpenseSumByCategory, Sql.result, hopen, if_true, Sql.groupSum,
      List.filterMap_map]
    rw [← filterMap_ite]
    simp [Function.comp_def, value, QVariant.toString, Sql.sumAsDouble]
  · intro c
    rw [Sql.sumAsDouble_eq, Sql.groupAmounts_expense]

/-! ## Ordering -/

namespace Sql

theorem orderByDateDesc_perm (rows : List Row) : (orderByDateDesc rows).Perm rows :=
  List.perm_insertionSort _ rows

theorem orderByDateDesc_sorted (rows : List Row) :
    (orderByDateDesc rows).Sorted (fun a b => b.date ≤ a.date) :=
  List.sorted_insertionSort _ rows

theorem orderByDate_perm (rows : List Row) : (orderByDate rows).Perm rows :=
  List.perm_insertionSort _ rows

theorem orderByDate_sorted (rows : List Row) :
    (orderByDate rows).Sorted (fun a b => a.date ≤ b.date) :=
  List.sorted_insertionSort _ rows

end Sql

theorem FInanceTracker.cells_star_ft (env : QtEnv) (r : Row) :
    FInanceTracker.cells env (Sql.star r)
      = [env.intToString r.id, r.date, r.type, r.category,
         FInanceTracker.formatRupiah env (if r.amount.isNaN then Double.zero else r.amount),
         r.description] := by
  by_cases h : r.amount.isNaN = true <;>
    simp [FInanceTracker.cells, Sql.star, Sql.realValue, value, QVariant.toString,
      QVariant.toDouble, List.range, List.range.loop, h]

theorem MainWindow.cells_star_mw (env : QtEnv) (r : Row) :
    MainWindow.cells env (Sql.star r)
      = [env.intToString r.id, r.date, r.type, r.category,
         env.numberF2 (if r.amount.isNaN then Double.zero else r.amount), r.description] := by
  by_cases h : r.amount.isNaN = true <;>
    simp [MainWindow.cells, Sql.star, Sql.realValue, value, QVariant.toString,
      QVariant.toDouble, h]

/-- Claim C7: for every store (an open connection), the rows that `loadTransactions` of both
classes puts in the table are the rendering of a list `l` of records that is a permutation
of the stored records and is sorted descending by date: the date of each row is at least
the date of the row after it.  (The amount cell renders the stored amount, and 0.0 for an
amount that is NULL.) -/
theorem loadTransactions_sorted_perm (env : QtEnv) (w : Window)
    (hopen : w.db.isOpen = true) :
    ∃ l : List Row,
      l.Perm w.db.rows
      ∧ l.Sorted (fun a b => b.date ≤ a.date)
      ∧ (∀ (i : Nat) (h : i + 1 < l.length),
          (l.get ⟨i + 1, h⟩).date ≤ (l.get ⟨i, Nat.lt_of_succ_lt h⟩).date)
      ∧ (FInanceTracker.loadTransactions env w).transactionTable = l.map (fun r =>
          [env.intToString r.id, r.date, r.type, r.category,
           FInanceTracker.formatRupiah env (if r.amount.isNaN then Double.zero else r.amount),
           r.description])
      ∧ (MainWindow.loadTransactions env w).transactionTable = l.map (fun r =>
          [env.intToString r.id, r.date, r.type, r.category,
           env.numberF2 (if r.amount.isNaN then Double.zero else r.amount),
           r.description]) := by
  refine ⟨Sql.orderByDateDesc w.db.rows, Sql.orderByDateDesc_perm _,
    Sql.orderByDateDesc_sorted _, ?_, ?_, ?_⟩
  · intro i h
    exact List.pairwise_iff_get.mp (Sql.orderByDateDesc_sorted w.db.rows) ⟨i, Nat.lt_of_succ_lt h⟩
      ⟨i + 1, h⟩ (Nat.lt_succ_self i)
  · rw [FInanceTracker.loadTransactions_eq_ft]
    simp only [Sql.selectAllOrderByDateDesc, Sql.result, hopen, if_true, List.map_map]
    apply List.map_congr_left
    intro r _
    exact FInanceTracker.cells_star_ft env r
  · rw [MainWindow.loadTransactions_eq_mw]
    simp only [Sql.selectAllOrderByDateDesc, Sql.result, hopen, if_true, List.map_map]
    apply List.map_congr_left
    intro r _
    exact MainWindow.cells_star_mw env r

/-! ## The refresh after a successful statement -/

namespace FInanceTracker

theorem refresh_db_ft (env : QtEnv) (w : Window) :
    (updateChart env (updateSummary env (loadTransactions env w))).db = w.db := by
  rw [updateChart_eq_ft, updateSummary_eq_ft, loadTransactions_eq_ft]

theorem refresh_messages_ft (env : QtEnv) (w : Window) :
    (updateChart env (updateSummary env (loadTransactions env w))).messages = w.messages := by
  rw [updateChart_eq_ft, updateSummary_eq_ft, loadTransactions_eq_ft]

theorem refresh_table_ft (env : QtEnv) (w : Window) :
    (updateChart env (updateSummary env (loadTransactions env w))).transactionTable
      = (Sql.selectAllOrderByDateDesc w.db).map (cells env) := by
  rw [updateChart_eq_ft, updateSummary_eq_ft, loadTransactions_eq_ft]

theorem addTransaction_of_ok_ft (env : QtEnv) (fault : Option String) (w : Window) (db : Db)
    (hpos : (env.toDouble w.amountEdit).leZero = false)
    (hins : Sql.insert w.db fault w.dateEdit.toString w.typeCombo w.categoryCombo
      (env.toDouble w.amountEdit) w.descriptionEdit = .ok db) :
    addTransaction env fault w = updateChart env (updateSummary env (loadTransactions env
      { w with db := db, amountEdit := "", descriptionEdit := "" })) := by
  unfold addTransaction
  simp only [hpos, Bool.false_eq_true, if_false, hins]

theorem addTransaction_of_error_ft (env : QtEnv) (fault : Option String) (w : Window) (e : String)
    (hpos : (env.toDouble w.amountEdit).leZero = false)
    (hins : Sql.insert w.db fault w.dateEdit.toString w.typeCombo w.categoryCombo
      (env.toDouble w.amountEdit) w.descriptionEdit = .error e) :
    addTransaction env fault w = w := by
  unfold addTransaction
  simp only [hpos, Bool.false_eq_true, if_false, hins]

theorem deleteTransaction_of_ok_ft (env : QtEnv) (fault : Option String) (w : Window) (db : Db)
    (hrow : 0 ≤ w.currentRow)
    (hdel : Sql.delete w.db fault (env.toInt (w.itemText w.currentRow 0)) = .ok db) :
    deleteTransaction env fault w
      = updateChart env (updateSummary env (loadTransactions env { w with db := db })) := by
  unfold deleteTransaction
  simp only [not_lt.mpr hrow, if_false, hdel]

theorem deleteTransaction_of_error_ft (env : QtEnv) (fault : Option String) (w : Window)
    (e : String) (hrow : 0 ≤ w.currentRow)
    (hdel : Sql.delete w.db fault (env.toInt (w.itemText w.currentRow 0)) = .error e) :
    deleteTransaction env fault w = w := by
  unfold deleteTransaction
  simp only [not_lt.mpr hrow, if_false, hdel]

end FInanceTracker

namespace MainWindow

theorem refresh_db_mw (env : QtEnv) (w : Window) :
    (updateChart env (updateSummary env (loadTransactions env w))).db = w.db := by
  rw [updateChart_eq_mw, updateSummary_eq_mw, loadTransactions_eq_mw]

theorem refresh_messages_mw (env : QtEnv) (w : Window) :
    (updateChart env (updateSummary env (loadTransactions env w))).messages = w.messages := by
  rw [updateChart_eq_mw, updateSummary_eq_mw, loadTransactions_eq_mw]

theorem refresh_table_mw (env : QtEnv) (w : Window) :
    (updateChart env (updateSummary env (loadTransactions env w))).transactionTable
      = (Sql.selectAllOrderByDateDesc w.db).map (cells env) := by
  rw [updateChart_eq_mw, updateSummary_eq_mw, loadTransactions_eq_mw]

theorem addTransaction_of_ok_mw (env : QtEnv) (fault : Option String) (w : Window) (db : Db)
    (hpos : (env.toDouble w.amountEdit).leZero = false)
    (hins : Sql.insert w.db fault w.dateEdit.toString w.typeCombo w.categoryCombo
      (env.toDouble w.amountEdit) w.descriptionEdit = .ok db) :
    addTransaction env fault w = updateChart env (updateSummary env (loadTransactions env
      { w with db := db, amountEdit := "", descriptionEdit := "" })) := by
  unfold addTransaction
  simp only [hpos, Bool.false_eq_true, if_false, hins]

theorem addTransaction_of_error_mw (env : QtEnv) (fault : Option String) (w : Window) (e : String)
    (hpos : (env.toDouble w.amountEdit).leZero = false)
    (hins : Sql.insert w.db fault w.dateEdit.toString w.typeCombo w.categoryCombo
      (env.toDouble w.amountEdit) w.descriptionEdit = .error e) :
    addTransaction env fault w = w.messageBox Icon.critical "Database Error" e := by
  unfold addTransaction
  simp only [hpos, Bool.false_eq_true, if_false, hins]

theorem deleteTransaction_of_ok_mw (env : QtEnv) (fault : Option String) (w : Window) (db : Db)
    (hrow : 0 ≤ w.currentRow)
    (hdel : Sql.delete w.db fault (env.toInt (w.itemText w.currentRow 0)) = .ok db) :
    deleteTransaction env fault w
      = updateChart env (updateSummary env (loadTransactions env { w with db := db })) := by
  unfold deleteTransaction
  simp only [not_lt.mpr hrow, if_false, hdel]

theorem deleteTransaction_of_error_mw (env : QtEnv) (fault : Option String) (w : Window)
    (e : String) (hrow : 0 ≤ w.currentRow)
    (hdel : Sql.delete w.db fault (env.toInt (w.itemText w.currentRow 0)) = .error e) :
    deleteTransaction env fault w = w := by
  unfold deleteTransaction
  simp only [not_lt.mpr hrow, if_false, hdel]

end MainWindow

/-! ## Statements -/

namespace Sql

theorem le_foldl_max (rows : List Row) :
    ∀ (m : Int), m ≤ rows.foldl (fun m r => max m r.id) m
      ∧ ∀ r ∈ rows, r.id ≤ rows.foldl (fun m r => max m r.id) m := by
  induction rows with
  | nil => intro m; simp
  | cons a rows ih =>
    intro m
    rw [List.foldl_cons]
    have h := ih (max m a.id)
    refine ⟨le_trans (le_max_left _ _) h.1, ?_⟩
    intro r hr
    rcases List.mem_cons.mp hr with rfl | hr
    · exact le_trans (le_max_right _ _) h.1
    · exact h.2 r hr

theorem le_largestRowid (rows : List Row) (r : Row) (h : r ∈ rows) :
    r.id ≤ largestRowid rows :=
  (le_foldl_max rows 0).2 r h

theorem insert_ok (db db2 : Db) (fault : Option String) (date type category : String)
    (amount : Double) (description : String)
    (h : insert db fault date type category amount description = .ok db2) :
    db.isOpen = true ∧ fault = none ∧ max db.seq (largestRowid db.rows) < maxRowid
      ∧ (db.amountNotNull = true → amount.isNaN = false)
      ∧ db2 = { db with
          rows := db.rows ++ [⟨max db.seq (largestRowid db.rows) + 1, date, type, category,
            amount, description⟩],
          seq := max db.seq (largestRowid db.rows) + 1 } := by
  unfold insert at h
  by_cases ho : db.isOpen = true
  · cases fault with
    | some e => simp [ho] at h
    | none =>
      by_cases hnull : (db.amountNotNull && amount.isNaN) = true
      · simp [ho, hnull] at h
      · by_cases hfull : maxRowid ≤ max db.seq (largestRowid db.rows)
        · simp [ho, hnull, hfull] at h
        · simp only [ho, if_true, hnull, Bool.false_eq_true, hfull, if_false,
            Except.ok.injEq] at h
          refine ⟨ho, rfl, not_le.mp hfull, ?_, ?_⟩
          · intro hn
            simpa [hn] using hnull
          · rw [← h, ho]
  · simp [ho] at h

theorem delete_ok (db db2 : Db) (fault : Option String) (id : Int)
    (h : delete db fault id = .ok db2) :
    db.isOpen = true ∧ fault = none
      ∧ db2 = { db with rows := db.rows.filter (fun r => r.id ≠ id) } := by
  unfold delete at h
  by_cases ho : db.isOpen = true
  · cases fault with
    | some e => simp [ho] at h
    | none =>
      simp only [ho, if_true, Except.ok.injEq] at h
      refine ⟨ho, rfl, ?_⟩
      rw [← h, ho]
  · simp [ho] at h

end Sql

/-- Claim C1: for every store state and every add request whose parsed amount is at most 0
(text that is not a number parses to 0), `addTransaction` of `FInanceTracker` and of
`MainWindow` shows the invalid-amount warning and leaves the store, and so the record
count, unchanged. -/
theorem addTransaction_rejects_nonpositive (env : QtEnv) (fault : Option String) (w : Window)
    (h : (env.toDouble w.amountEdit).leZero = true) :
    ((FInanceTracker.addTransaction env fault w).db = w.db
      ∧ (FInanceTracker.addTransaction env fault w).db.rows.length = w.db.rows.length
      ∧ (FInanceTracker.addTransaction env fault w).messages
          = w.messages ++ [⟨Icon.warning, "Input Error", "Please enter a valid amount."⟩])
    ∧ ((MainWindow.addTransaction env fault w).db = w.db
      ∧ (MainWindow.addTransaction env fault w).db.rows.length = w.db.rows.length
      ∧ (MainWindow.addTransaction env fault w).messages
          = w.messages ++ [⟨Icon.warning, "Invalid Input", "Please enter a valid amount."⟩]) := by
  simp [FInanceTracker.addTransaction, MainWindow.addTransaction, h, Window.messageBox]

/-! ## Adding and deleting -/

theorem Double.leZero_of_pos (x : Double) (h : x.pos = true) : x.leZero = false := by
  cases x with
  | nan => simp [Double.pos] at h
  | posInf => rfl
  | negInf => simp [Double.pos] at h
  | num q hq =>
    simp only [Double.pos, decide_eq_true_eq] at h
    simp [Double.leZero, h]

theorem listing_insert (db db2 : Db) (fault : Option String) (date type category : String)
    (amount : Double) (description : String)
    (h : Sql.insert db fault date type category amount description = .ok db2) :
    ∃ id : Int, (∀ r ∈ db.rows, r.id ≠ id)
      ∧ (Sql.selectAllOrderByDateDesc db2).Perm
          (Sql.star ⟨id, date, type, category, amount, description⟩
            :: Sql.selectAllOrderByDateDesc db) := by
  obtain ⟨ho, _, _, _, rfl⟩ := Sql.insert_ok _ _ _ _ _ _ _ _ h
  refine ⟨max db.seq (Sql.largestRowid db.rows) + 1, ?_, ?_⟩
  · intro r hr heq
    have h1 := Sql.le_largestRowid db.rows r hr
    have h2 := le_max_right db.seq (Sql.largestRowid db.rows)
    omega
  · simp only [Sql.selectAllOrderByDateDesc, Sql.result, ho, if_true]
    refine (((Sql.orderByDateDesc_perm _).trans (List.perm_append_singleton _ _)).map
      Sql.star).trans ?_
    rw [List.map_cons]
    exact List.Perm.cons _ ((Sql.orderByDateDesc_perm _).map Sql.star).symm

/-- Claim C2, amended: for every store state and every add with amount > 0 whose insert
succeeds, the listing afterwards is the listing before together with exactly one new
record, which carries an id no stored record had and the added fields (date, kind,
category, amount, description); so exactly one record has the new id and the number of
records matching the added fields grows by exactly one.  Both classes then hold the new
store and show that listing in the table. -/
theorem addTransaction_listing (env : QtEnv) (fault : Option String) (w : Window) (db2 : Db)
    (hpos : (env.toDouble w.amountEdit).pos = true)
    (hins : Sql.insert w.db fault w.dateEdit.toString w.typeCombo w.categoryCombo
      (env.toDouble w.amountEdit) w.descriptionEdit = .ok db2) :
    (∃ id : Int, (∀ r ∈ w.db.rows, r.id ≠ id)
      ∧ (Sql.selectAllOrderByDateDesc db2).Perm
          (Sql.star ⟨id, w.dateEdit.toString, w.typeCombo, w.categoryCombo,
              env.toDouble w.amountEdit, w.descriptionEdit⟩
            :: Sql.selectAllOrderByDateDesc w.db)
      ∧ (Sql.selectAllOrderByDateDesc db2).countP (fun query => value query 0 = QVariant.int id)
          = 1)
    ∧ (Sql.selectAllOrderByDateDesc db2).countP
          (hasFields w.dateEdit.toString w.typeCombo w.categoryCombo
            (env.toDouble w.amountEdit) w.descriptionEdit)
        = (Sql.selectAllOrderByDateDesc w.db).countP
            (hasFields w.dateEdit.toString w.typeCombo w.categoryCombo
              (env.toDouble w.amountEdit) w.descriptionEdit) + 1
    ∧ ((FInanceTracker.addTransaction env fault w).db = db2
      ∧ (FInanceTracker.addTransaction env fault w).transactionTable
          = (Sql.selectAllOrderByDateDesc db2).map (FInanceTracker.cells env))
    ∧ ((MainWindow.addTransaction env fault w).db = db2
      ∧ (MainWindow.addTransaction env fault w).transactionTable
          = (Sql.selectAllOrderByDateDesc db2).map (MainWindow.cells env)) := by
  obtain ⟨id, hfresh, hperm⟩ := listing_insert _ _ _ _ _ _ _ _ hins
  refine ⟨⟨id, hfresh, hperm, ?_⟩, ?_, ?_, ?_⟩
  · rw [hperm.countP_eq, List.countP_cons]
    have hz : (Sql.selectAllOrderByDateDesc w.db).countP
        (fun query => value query 0 = QVariant.int id) = 0 := by
      rw [List.countP_eq_zero]
      intro q hq
      unfold Sql.selectAllOrderByDateDesc Sql.result at hq
      split at hq
      · obtain ⟨r, hr, rfl⟩ := List.mem_map.mp hq
        have hr2 := (Sql.orderByDateDesc_perm w.db.rows).mem_iff.mp hr
        simpa [Sql.star, value] using hfresh r hr2
      · simp at hq
    rw [hz]
    simp [Sql.star, value]
  · rw [hperm.countP_eq, List.countP_cons]
    simp [hasFields, Sql.star]
  · rw [FInanceTracker.addTransaction_of_ok_ft env fault w db2
      (Double.leZero_of_pos _ hpos) hins]
    exact ⟨FInanceTracker.refresh_db_ft _ _, FInanceTracker.refresh_table_ft _ _⟩
  · rw [MainWindow.addTransaction_of_ok_mw env fault w db2
      (Double.leZero_of_pos _ hpos) hins]
    exact ⟨MainWindow.refresh_db_mw _ _, MainWindow.refresh_table_mw _ _⟩

theorem listing_delete (db : Db) (id : Int) (hopen : db.isOpen = true) :
    (∀ query ∈ Sql.selectAllOrderByDateDesc
        { db with rows := db.rows.filter (fun r => r.id ≠ id) }, value query 0 ≠ QVariant.int id)
    ∧ (∀ r ∈ db.rows, r.id ≠ id → Sql.star r ∈ Sql.selectAllOrderByDateDesc
        { db with rows := db.rows.filter (fun r => r.id ≠ id) })
    ∧ (∀ query ∈ Sql.selectAllOrderByDateDesc
        { db with rows := db.rows.filter (fun r => r.id ≠ id) },
        query ∈ Sql.selectAllOrderByDateDesc db) := by
  simp only [Sql.selectAllOrderByDateDesc, Sql.result, hopen, if_true]
  refine ⟨?_, ?_, ?_⟩
  · intro q hq
    obtain ⟨r, hr, rfl⟩ := List.mem_map.mp hq
    have hr2 := List.mem_filter.mp ((Sql.orderByDateDesc_perm _).mem_iff.mp hr)
    simpa [Sql.star, value] using hr2.2
  · intro r hr hne
    apply List.mem_map_of_mem
    apply (Sql.orderByDateDesc_perm _).mem_iff.mpr
    exact List.mem_filter.mpr ⟨hr, by simpa using hne⟩
  · intro q hq
    obtain ⟨r, hr, rfl⟩ := List.mem_map.mp hq
    have hr2 := List.mem_filter.mp ((Sql.orderByDateDesc_perm _).mem_iff.mp hr)
    apply List.mem_map_of_mem
    exact (Sql.orderByDateDesc_perm _).mem_iff.mpr hr2.1

theorem filter_id_ne_self (rows : List Row) (id : Int) (h : ∀ r ∈ rows, r.id ≠ id) :
    rows.filter (fun r => r.id ≠ id) = rows := by
  rw [List.filter_eq_self]
  intro r hr
  simpa using h r hr

/-- The id cell of a refreshed table: on an open connection, row `i` of the table that
`loadTransactions` of both classes builds shows the decimal text `intToString` of the id of
the `i`-th record of the listing. -/
theorem loadTransactions_shows_id (env : QtEnv) (w : Window) (hopen : w.db.isOpen = true)
    (i : Nat) (h : i < (Sql.orderByDateDesc w.db.rows).length) :
    (FInanceTracker.loadTransactions env w).itemText i 0
        = env.intToString ((Sql.orderByDateDesc w.db.rows).get ⟨i, h⟩).id
    ∧ (MainWindow.loadTransactions env w).itemText i 0
        = env.intToString ((Sql.orderByDateDesc w.db.rows).get ⟨i, h⟩).id := by
  rw [FInanceTracker.loadTransactions_eq_ft, MainWindow.loadTransactions_eq_mw]
  simp only [Window.itemText, Sql.selectAllOrderByDateDesc, Sql.result, hopen, if_true,
    List.map_map, Int.toNat_ofNat]
  constructor
  · simp [List.getElem?_eq_getElem h, FInanceTracker.cells_star_ft]
  · simp [List.getElem?_eq_getElem h, MainWindow.cells_star_mw]

/-- Claim C3, amended: let the current row show the decimal text of `id`, and let `toInt`
read that text back as `id` (so it does for the ids in the range of the 32-bit `int` that
the code reads the cell into).  When the DELETE statement executes, the store afterwards is
the store before without the records of that id: the listing holds no record with that id,
holds every record of another id unchanged, holds nothing else, and is what the table
shows; when no record has that id the store is unchanged.  With a row current no message is
shown, whether or not the statement executes.  When no row is current the store is
unchanged, `FInanceTracker` does nothing at all and `MainWindow` shows the warning
"No Selection". -/
theorem deleteTransaction_effect (env : QtEnv) (fault : Option String) (w : Window) (id : Int) :
    (0 ≤ w.currentRow → w.itemText w.currentRow 0 = env.intToString id →
      env.toInt (env.intToString id) = id → w.db.isOpen = true → fault = none →
      ((FInanceTracker.deleteTransaction env fault w).db
          = { w.db with rows := w.db.rows.filter (fun r => r.id ≠ id) }
        ∧ (FInanceTracker.deleteTransaction env fault w).transactionTable
          = (Sql.selectAllOrderByDateDesc (FInanceTracker.deleteTransaction env fault w).db).map
              (FInanceTracker.cells env)
        ∧ (MainWindow.deleteTransaction env fault w).db
          = { w.db with rows := w.db.rows.filter (fun r => r.id ≠ id) }
        ∧ (MainWindow.deleteTransaction env fault w).transactionTable
          = (Sql.selectAllOrderByDateDesc (MainWindow.deleteTransaction env fault w).db).map
              (MainWindow.cells env))
      ∧ (∀ query ∈ Sql.selectAllOrderByDateDesc
            { w.db with rows := w.db.rows.filter (fun r => r.id ≠ id) },
          value query 0 ≠ QVariant.int id ∧ query ∈ Sql.selectAllOrderByDateDesc w.db)
      ∧ (∀ r ∈ w.db.rows, r.id ≠ id →
          Sql.star r ∈ Sql.selectAllOrderByDateDesc
            { w.db with rows := w.db.rows.filter (fun r => r.id ≠ id) })
      ∧ ((∀ r ∈ w.db.rows, r.id ≠ id) →
          (FInanceTracker.deleteTransaction env fault w).db = w.db
          ∧ (MainWindow.deleteTransaction env fault w).db = w.db))
    ∧ (0 ≤ w.currentRow →
        (FInanceTracker.deleteTransaction env fault w).messages = w.messages
        ∧ (MainWindow.deleteTransaction env fault w).messages = w.messages)
    ∧ (w.currentRow < 0 →
        FInanceTracker.deleteTransaction env fault w = w
        ∧ MainWindow.deleteTransaction env fault w
            = { w with messages := w.messages ++
                  [⟨Icon.warning, "No Selection", "Please select a transaction to delete."⟩] }) := by
  refine ⟨?_, ?_, ?_⟩
  · intro hrow hshown hread hopen hfault
    subst hfault
    have hid : env.toInt (w.itemText w.currentRow 0) = id := by rw [hshown, hread]
    have hdel : Sql.delete w.db none (env.toInt (w.itemText w.currentRow 0))
        = .ok { w.db with rows := w.db.rows.filter (fun r => r.id ≠ id) } := by
      simp [Sql.delete, hopen, hid]
    have hF := FInanceTracker.deleteTransaction_of_ok_ft env none w _ hrow hdel
    have hM := MainWindow.deleteTransaction_of_ok_mw env none w _ hrow hdel
    have hl := listing_delete w.db id hopen
    refine ⟨⟨?_, ?_, ?_, ?_⟩, fun q hq => ⟨hl.1 q hq, hl.2.2 q hq⟩, hl.2.1, ?_⟩
    · rw [hF, FInanceTracker.refresh_db_ft]
    · rw [hF, FInanceTracker.refresh_db_ft, FInanceTracker.refresh_table_ft]
    · rw [hM, MainWindow.refresh_db_mw]
    · rw [hM, MainWindow.refresh_db_mw, MainWindow.refresh_table_mw]
    · intro hnone
      rw [hF, hM, FInanceTracker.refresh_db_ft, MainWindow.refresh_db_mw]
      simp only [filter_id_ne_self _ _ hnone, and_self]
  · intro hrow
    cases hres : Sql.delete w.db fault (env.toInt (w.itemText w.currentRow 0)) with
    | ok db2 =>
      rw [FInanceTracker.deleteTransaction_of_ok_ft env fault w db2 hrow hres,
        MainWindow.deleteTransaction_of_ok_mw env fault w db2 hrow hres,
        FInanceTracker.refresh_messages_ft, MainWindow.refresh_messages_mw]
      exact ⟨rfl, rfl⟩
    | error e =>
      rw [FInanceTracker.deleteTransaction_of_error_ft env fault w e hrow hres,
        MainWindow.deleteTransaction_of_error_mw env fault w e hrow hres]
      exact ⟨rfl, rfl⟩
  · intro hrow
    simp [FInanceTracker.deleteTransaction, MainWindow.deleteTransaction, hrow, Window.messageBox]

/-! ## Export -/

theorem foldl_append_data {α : Type} (line : α → String) :
    ∀ (l : List α) (init : String),
      (l.foldl (fun out a => out ++ line a) init).data
        = init.data ++ ((l.map line).map String.data).flatten := by
  intro l
  induction l with
  | nil => intro init; simp
  | cons a l ih => intro init; simp [ih]

theorem foldl_append_join {α : Type} (line : α → String) (l : List α) (init : String) :
    l.foldl (fun out a => out ++ line a) init = init ++ String.join (l.map line) := by
  apply String.ext
  rw [foldl_append_data, String.data_append, String.join_eq]

theorem export_loop (env : QtEnv) (rows : List Row) :
    (rows.map Sql.exportColumns).foldl
      (fun out query =>
        out ++ (value query 0).toString env ++ "," ++ (value query 1).toString env ++ ","
          ++ (value query 2).toString env ++ "," ++ (value query 3).toString env ++ ","
          ++ (value query 4).toString env ++ "\n")
      "Date,Type,Category,Amount,Description\n"
      = csvHeader ++ String.join (rows.map (csvLine env)) := by
  rw [List.foldl_map, ← foldl_append_join]
  congr 1
  funext out r
  by_cases h : r.amount.isNaN = true <;>
    simp [csvLine, Sql.exportColumns, Sql.realValue, value, QVariant.toString,
      String.append_assoc, h]

theorem FInanceTracker.exportToCSV_snd_ft (env : QtEnv) (filename : String) (w : Window)
    (hname : filename ≠ "") (hopen : w.db.isOpen = true) :
    (FInanceTracker.exportToCSV env filename true w).2
      = some (csvHeader ++ String.join (w.db.rows.map (csvLine env))) := by
  unfold FInanceTracker.exportToCSV
  simp only [hname, if_false, if_true, Sql.selectExport, Sql.result, hopen, export_loop]

theorem MainWindow.exportToCSV_snd_mw (env : QtEnv) (filename : String) (w : Window)
    (hname : filename ≠ "") (hopen : w.db.isOpen = true) :
    (MainWindow.exportToCSV env filename true w).2
      = some (csvHeader ++ String.join ((Sql.orderByDate w.db.rows).map (csvLine env))) := by
  unfold MainWindow.exportToCSV
  simp only [hname, if_false, Bool.not_true, Bool.false_eq_true, Sql.selectExportOrderByDate,
    Sql.result, hopen, if_true, export_loop]

/-- The export of `MainWindow` is ascending by date, for every store. -/
theorem MainWindow.exportToCSV_sorted (env : QtEnv) (filename : String) (w : Window)
    (hname : filename ≠ "") (hopen : w.db.isOpen = true) :
    ∃ l : List Row, l.Perm w.db.rows ∧ l.Sorted (fun a b => a.date ≤ b.date)
      ∧ (MainWindow.exportToCSV env filename true w).2
        = some (csvHeader ++ String.join (l.map (csvLine env))) :=
  ⟨Sql.orderByDate w.db.rows, Sql.orderByDate_perm _, Sql.orderByDate_sorted _,
    MainWindow.exportToCSV_snd_mw env filename w hname hopen⟩

theorem fieldCount_csvLine (env : QtEnv) (r : Row) (h : ',' ∈ r.description.data) :
    5 < fieldCount (csvLine env r) := by
  have hpos : 0 < r.description.data.count ',' := List.count_pos_iff.mpr h
  have hc : (",".data).count ',' = 1 := by decide
  unfold fieldCount csvLine
  simp only [String.data_append, List.count_append, hc]
  omega

/-- Claim C8: for every store (an open connection, the file writable), the text written by
`exportToCSV` of both classes is the header line `Date,Type,Category,Amount,Description`
followed by exactly one line per stored record, each line being the five stored fields
date, type, category, amount (the empty text for an amount that is NULL), description
joined by commas and ended by a newline, nothing quoted or escaped; so a description
holding a comma gives a line of more than five comma-separated fields. -/
theorem exportToCSV_text (env : QtEnv) (filename : String) (w : Window)
    (hname : filename ≠ "") (hopen : w.db.isOpen = true) :
    (FInanceTracker.exportToCSV env filename true w).2
        = some ("Date,Type,Category,Amount,Description\n"
            ++ String.join (w.db.rows.map (fun r =>
                r.date ++ "," ++ r.type ++ "," ++ r.category ++ ","
                  ++ (if r.amount.isNaN then "" else env.doubleToString r.amount) ++ ","
                  ++ r.description ++ "\n")))
    ∧ (∃ l : List Row, l.Perm w.db.rows ∧ l.length = w.db.rows.length
        ∧ (MainWindow.exportToCSV env filename true w).2
          = some ("Date,Type,Category,Amount,Description\n"
              ++ String.join (l.map (fun r =>
                  r.date ++ "," ++ r.type ++ "," ++ r.category ++ ","
                    ++ (if r.amount.isNaN then "" else env.doubleToString r.amount) ++ ","
                    ++ r.description ++ "\n"))))
    ∧ (∀ r : Row, ',' ∈ r.description.data →
        5 < fieldCount (r.date ++ "," ++ r.type ++ "," ++ r.category ++ ","
              ++ (if r.amount.isNaN then "" else env.doubleToString r.amount) ++ ","
              ++ r.description ++ "\n")) := by
  refine ⟨FInanceTracker.exportToCSV_snd_ft env filename w hname hopen,
    ⟨Sql.orderByDate w.db.rows, Sql.orderByDate_perm _, (Sql.orderByDate_perm _).length_eq,
      MainWindow.exportToCSV_snd_mw env filename w hname hopen⟩,
    fun r h => fieldCount_csvLine env r h⟩

/-! ## Runs -/

theorem FInanceTracker.step_db_ft (env : QtEnv) (w : Window) (op : Op) :
    DbStep w.db (FInanceTracker.step env w op).db := by
  cases op with
  | add date type category amount description fault =>
    simp only [FInanceTracker.step]
    generalize hv : w.fillForm date type category amount description = v
    have hdb : v.db = w.db := by rw [← hv]; rfl
    rw [← hdb]
    by_cases hle : (env.toDouble v.amountEdit).leZero = true
    · left
      simp [FInanceTracker.addTransaction, hle, Window.messageBox]
    · have hpos : (env.toDouble v.amountEdit).leZero = false := by simpa using hle
      cases hins : Sql.insert v.db fault v.dateEdit.toString v.typeCombo v.categoryCombo
          (env.toDouble v.amountEdit) v.descriptionEdit with
      | ok db2 =>
        right; left
        rw [FInanceTracker.addTransaction_of_ok_ft env fault v db2 hpos hins,
          FInanceTracker.refresh_db_ft]
        exact ⟨fault, _, _, _, _, _, hpos, hins⟩
      | error e =>
        left
        rw [FInanceTracker.addTransaction_of_error_ft env fault v e hpos hins]
  | delete row fault =>
    simp only [FInanceTracker.step]
    generalize hv : w.selectRow row = v
    have hdb : v.db = w.db := by rw [← hv]; rfl
    rw [← hdb]
    by_cases hrow : v.currentRow < 0
    · left
      simp [FInanceTracker.deleteTransaction, hrow]
    · have hrow2 := not_lt.mp hrow
      cases hdel : Sql.delete v.db fault (env.toInt (v.itemText v.currentRow 0)) with
      | ok db2 =>
        right; right
        rw [FInanceTracker.deleteTransaction_of_ok_ft env fault v db2 hrow2 hdel,
          FInanceTracker.refresh_db_ft]
        exact ⟨fault, _, hdel⟩
      | error e =>
        left
        rw [FInanceTracker.deleteTransaction_of_error_ft env fault v e hrow2 hdel]

theorem MainWindow.step_db_mw (env : QtEnv) (w : Window) (op : Op) :
    DbStep w.db (MainWindow.step env w op).db := by
  cases op with
  | add date type category amount description fault =>
    simp only [MainWindow.step]
    generalize hv : w.fillForm date type category amount description = v
    have hdb : v.db = w.db := by rw [← hv]; rfl
    rw [← hdb]
    by_cases hle : (env.toDouble v.amountEdit).leZero = true
    · left
      simp [MainWindow.addTransaction, hle, Window.messageBox]
    · have hpos : (env.toDouble v.amountEdit).leZero = false := by simpa using hle
      cases hins : Sql.insert v.db fault v.dateEdit.toString v.typeCombo v.categoryCombo
          (env.toDouble v.amountEdit) v.descriptionEdit with
      | ok db2 =>
        right; left
        rw [MainWindow.addTransaction_of_ok_mw env fault v db2 hpos hins, MainWindow.refresh_db_mw]
        exact ⟨fault, _, _, _, _, _, hpos, hins⟩
      | error e =>
        left
        rw [MainWindow.addTransaction_of_error_mw env fault v e hpos hins]
        rfl
  | delete row fault =>
    simp only [MainWindow.step]
    generalize hv : w.selectRow row = v
    have hdb : v.db = w.db := by rw [← hv]; rfl
    rw [← hdb]
    by_cases hrow : v.currentRow < 0
    · left
      simp [MainWindow.deleteTransaction, hrow, Window.messageBox]
    · have hrow2 := not_lt.mp hrow
      cases hdel : Sql.delete v.db fault (env.toInt (v.itemText v.currentRow 0)) with
      | ok db2 =>
        right; right
        rw [MainWindow.deleteTransaction_of_ok_mw env fault v db2 hrow2 hdel,
          MainWindow.refresh_db_mw]
        exact ⟨fault, _, hdel⟩
      | error e =>
        left
        rw [MainWindow.deleteTransaction_of_error_mw env fault v e hrow2 hdel]

theorem createdIds_self (db : Db) : createdIds db db = [] := by
  unfold createdIds
  rw [List.filter_eq_nil_iff]
  intro i hi
  simpa using hi

theorem idsFresh_step (db db2 : Db) (created : List Int) (h : IdsFresh db created)
    (hstep : DbStep db db2) : IdsFresh db2 (created ++ createdIds db db2) := by
  obtain ⟨hnd, hcnd, hle, hsub⟩ := h
  rcases hstep with rfl | ⟨fault, date, type, category, amount, description, _, hins⟩
    | ⟨fault, id, hdel⟩
  · rw [createdIds_self, List.append_nil]
    exact ⟨hnd, hcnd, hle, hsub⟩
  · obtain ⟨_, _, _, _, rfl⟩ := Sql.insert_ok _ _ _ _ _ _ _ _ hins
    have hseq := le_max_left db.seq (Sql.largestRowid db.rows)
    have hnew : ∀ i ∈ created, i ≠ max db.seq (Sql.largestRowid db.rows) + 1 := by
      intro i hi heq
      have := hle i hi
      omega
    have hnotin : max db.seq (Sql.largestRowid db.rows) + 1 ∉ db.rows.map Row.id := by
      intro hmem
      obtain ⟨r, hr, hrid⟩ := List.mem_map.mp hmem
      exact hnew r.id (hsub r hr) hrid
    have hcreated : createdIds db
        { db with
          rows := db.rows ++ [⟨max db.seq (Sql.largestRowid db.rows) + 1, date, type, category,
            amount, description⟩],
          seq := max db.seq (Sql.largestRowid db.rows) + 1 }
        = [max db.seq (Sql.largestRowid db.rows) + 1] := by
      unfold createdIds
      simp only [List.map_append, List.filter_append, List.map_cons, List.map_nil]
      have h1 : (db.rows.map Row.id).filter (fun i => i ∉ db.rows.map Row.id) = [] := by
        rw [List.filter_eq_nil_iff]
        intro i hi
        simpa using hi
      rw [h1, List.nil_append]
      have hd : decide (max db.seq (Sql.largestRowid db.rows) + 1 ∉ db.rows.map Row.id) = true :=
        decide_eq_true hnotin
      rw [List.filter_cons, hd]
      rfl
    rw [hcreated]
    refine ⟨?_, ?_, ?_, ?_⟩
    · simp only [List.map_append, List.map_cons, List.map_nil]
      rw [List.nodup_append]
      refine ⟨hnd, List.nodup_singleton _, ?_⟩
      intro a ha hb
      rw [List.mem_singleton] at hb
      exact hnotin (hb ▸ ha)
    · rw [List.nodup_append]
      refine ⟨hcnd, List.nodup_singleton _, ?_⟩
      intro a ha hb
      rw [List.mem_singleton] at hb
      exact hnew a ha hb
    · intro i hi
      rcases List.mem_append.mp hi with hi | hi
      · have := hle i hi
        show i ≤ max db.seq (Sql.largestRowid db.rows) + 1
        omega
      · rw [List.mem_singleton] at hi
        exact le_of_eq hi
    · intro r hr
      rcases List.mem_append.mp hr with hr | hr
      · exact List.mem_append_left _ (hsub r hr)
      · rw [List.mem_singleton] at hr
        subst hr
        exact List.mem_append_right _ (List.mem_singleton_self _)
  · obtain ⟨_, _, rfl⟩ := Sql.delete_ok _ _ _ _ hdel
    have hcreated : createdIds db { db with rows := db.rows.filter (fun r => r.id ≠ id) } = [] := by
      unfold createdIds
      rw [List.filter_eq_nil_iff]
      intro i hi
      obtain ⟨r, hr, rfl⟩ := List.mem_map.mp hi
      have := List.mem_map_of_mem Row.id (List.mem_filter.mp hr).1
      simpa using this
    rw [hcreated, List.append_nil]
    refine ⟨?_, hcnd, hle, ?_⟩
    · exact hnd.sublist ((List.filter_sublist _).map Row.id)
    · intro r hr
      exact hsub r (List.mem_filter.mp hr).1

theorem idsFresh_run (step : Window → Op → Window)
    (hstep : ∀ w op, DbStep w.db (step w op).db) :
    ∀ (ops : List Op) (w : Window) (created : List Int), IdsFresh w.db created →
      IdsFresh (run step w ops).db (created ++ history step w ops) := by
  intro ops
  induction ops with
  | nil => intro w created h; simpa [run, history] using h
  | cons op ops ih =>
    intro w created h
    have h2 := ih (step w op) _ (idsFresh_step _ _ _ h (hstep w op))
    simpa [run, history, List.append_assoc] using h2

theorem Double.pos_or_nan (x : Double) (h : x.leZero = false) :
    x.pos = true ∨ x = Double.nan := by
  cases x with
  | nan => right; rfl
  | posInf => left; rfl
  | negInf => simp [Double.leZero] at h
  | num q hq =>
    left
    simp only [Double.leZero, decide_eq_false_iff_not, not_le] at h
    simp [Double.pos, h]

theorem Double.isNaN_eq_false (x : Double) (h : x.isNaN = false) : x ≠ Double.nan := by
  intro hx
  rw [hx] at h
  simp [Double.isNaN] at h

/-- What the guard `amount <= 0` keeps along a run: every stored amount is > 0 or is NULL,
and NULL only in a table whose `amount` column is not declared `NOT NULL`. -/
theorem guarded_run (step : Window → Op → Window)
    (hstep : ∀ w op, DbStep w.db (step w op).db) :
    ∀ (ops : List Op) (w : Window),
      (∀ r ∈ w.db.rows, r.amount.pos = true
        ∨ (r.amount = Double.nan ∧ w.db.amountNotNull = false)) →
      (run step w ops).db.amountNotNull = w.db.amountNotNull
      ∧ ∀ r ∈ (run step w ops).db.rows, r.amount.pos = true
        ∨ (r.amount = Double.nan ∧ w.db.amountNotNull = false) := by
  intro ops
  induction ops with
  | nil => intro w h; exact ⟨rfl, by simpa [run] using h⟩
  | cons op ops ih =>
    intro w h
    have h2 : (step w op).db.amountNotNull = w.db.amountNotNull
        ∧ ∀ r ∈ (step w op).db.rows, r.amount.pos = true
          ∨ (r.amount = Double.nan ∧ w.db.amountNotNull = false) := by
      rcases hstep w op with heq | ⟨fault, date, type, category, amount, description, hpos, hins⟩
        | ⟨fault, id, hdel⟩
      · rw [heq]; exact ⟨rfl, h⟩
      · obtain ⟨_, _, _, hnull, hdb⟩ := Sql.insert_ok _ _ _ _ _ _ _ _ hins
        rw [hdb]
        refine ⟨rfl, ?_⟩
        intro r hr
        rcases List.mem_append.mp hr with hr | hr
        · exact h r hr
        · rw [List.mem_singleton] at hr
          subst hr
          rcases Double.pos_or_nan amount hpos with hp | hn
          · exact Or.inl hp
          · right
            refine ⟨hn, ?_⟩
            cases hflag : w.db.amountNotNull with
            | false => rfl
            | true => exact absurd hn (Double.isNaN_eq_false _ (hnull hflag))
      · obtain ⟨_, _, hdb⟩ := Sql.delete_ok _ _ _ _ hdel
        rw [hdb]
        refine ⟨rfl, ?_⟩
        intro r hr
        exact h r (List.mem_filter.mp hr).1
    have h3 := ih (step w op) (by rw [h2.1]; exact h2.2)
    rw [h2.1] at h3
    simpa [run] using h3

theorem FInanceTracker.create_db_ft (env : QtEnv) (today : QDate) (openFault : Option String)
    (file : Db) :
    (FInanceTracker.create env today openFault file).db.rows = file.rows
      ∧ (FInanceTracker.create env today openFault file).db.seq = file.seq
      ∧ (FInanceTracker.create env today openFault file).db.amountNotNull
          = file.amountNotNull := by
  unfold FInanceTracker.create
  rw [FInanceTracker.refresh_db_ft]
  cases openFault <;> exact ⟨rfl, rfl, rfl⟩

theorem MainWindow.create_db_mw (env : QtEnv) (today : QDate) (openFault : Option String)
    (file : Db) :
    (MainWindow.create env today openFault file).db.rows = file.rows
      ∧ (MainWindow.create env today openFault file).db.seq = file.seq
      ∧ (MainWindow.create env today openFault file).db.amountNotNull
          = file.amountNotNull := by
  unfold MainWindow.create
  rw [MainWindow.refresh_db_mw]
  cases openFault <;> exact ⟨rfl, rfl, rfl⟩

theorem idsFresh_empty (db : Db) (h : db.rows = []) : IdsFresh db [] := by
  refine ⟨?_, List.nodup_nil, ?_, ?_⟩
  · rw [h]; exact List.nodup_nil
  · intro i hi; cases hi
  · rw [h]; intro r hr; cases hr

/-- Claim C9: in every state reached from the empty store (of either table schema) by a
sequence of add and delete actions, in both classes, no two stored records share an id, and
the ids assigned by the adds of the run are pairwise different, those of records deleted
since included: no id is used twice. -/
theorem ids_unique_never_reused (env : QtEnv) (today : QDate) (openFault : Option String)
    (isOpen amountNotNull : Bool) (ops : List Op) :
    (((run (FInanceTracker.step env)
          (FInanceTracker.create env today openFault (Db.empty isOpen amountNotNull)) ops).db.rows.map
        Row.id).Nodup
      ∧ (history (FInanceTracker.step env)
          (FInanceTracker.create env today openFault (Db.empty isOpen amountNotNull)) ops).Nodup
      ∧ ∀ r ∈ (run (FInanceTracker.step env)
          (FInanceTracker.create env today openFault (Db.empty isOpen amountNotNull)) ops).db.rows,
          r.id ∈ history (FInanceTracker.step env)
            (FInanceTracker.create env today openFault (Db.empty isOpen amountNotNull)) ops)
    ∧ (((run (MainWindow.step env)
          (MainWindow.create env today openFault (Db.empty isOpen amountNotNull)) ops).db.rows.map
        Row.id).Nodup
      ∧ (history (MainWindow.step env)
          (MainWindow.create env today openFault (Db.empty isOpen amountNotNull)) ops).Nodup
      ∧ ∀ r ∈ (run (MainWindow.step env)
          (MainWindow.create env today openFault (Db.empty isOpen amountNotNull)) ops).db.rows,
          r.id ∈ history (MainWindow.step env)
            (MainWindow.create env today openFault (Db.empty isOpen amountNotNull)) ops) := by
  have hF := idsFresh_run (FInanceTracker.step env) (FInanceTracker.step_db_ft env) ops
    (FInanceTracker.create env today openFault (Db.empty isOpen amountNotNull)) []
    (idsFresh_empty _ (FInanceTracker.create_db_ft env today openFault _).1)
  have hM := idsFresh_run (MainWindow.step env) (MainWindow.step_db_mw env) ops
    (MainWindow.create env today openFault (Db.empty isOpen amountNotNull)) []
    (idsFresh_empty _ (MainWindow.create_db_mw env today openFault _).1)
  rw [List.nil_append] at hF hM
  exact ⟨⟨hF.1, hF.2.1, hF.2.2.2⟩, hM.1, hM.2.1, hM.2.2.2⟩

/-- The invariant of the stored amounts: in every state reached from the empty store by a
sequence of `addTransaction` and `deleteTransaction` calls with arbitrary form inputs, in
both classes, every stored amount is > 0 or is NULL (a NaN that passed the guard
`amount <= 0`), and it is > 0 when the table declares `amount REAL NOT NULL`, as the
`CREATE TABLE` of `MainWindow` does. -/
theorem amounts_positive_or_null (env : QtEnv) (today : QDate) (openFault : Option String)
    (isOpen amountNotNull : Bool) (ops : List Op) :
    (∀ r ∈ (run (FInanceTracker.step env)
        (FInanceTracker.create env today openFault (Db.empty isOpen amountNotNull))
        ops).db.rows,
        r.amount.pos = true ∨ (r.amount = Double.nan ∧ amountNotNull = false))
    ∧ (∀ r ∈ (run (MainWindow.step env)
        (MainWindow.create env today openFault (Db.empty isOpen amountNotNull)) ops).db.rows,
        r.amount.pos = true ∨ (r.amount = Double.nan ∧ amountNotNull = false)) := by
  constructor
  · have h := (guarded_run (FInanceTracker.step env) (FInanceTracker.step_db_ft env) ops
      (FInanceTracker.create env today openFault (Db.empty isOpen amountNotNull))
      (by rw [(FInanceTracker.create_db_ft env today openFault _).1]; intro r hr; cases hr)).2
    rw [(FInanceTracker.create_db_ft env today openFault _).2.2] at h
    exact h
  · have h := (guarded_run (MainWindow.step env) (MainWindow.step_db_mw env) ops
      (MainWindow.create env today openFault (Db.empty isOpen amountNotNull))
      (by rw [(MainWindow.create_db_mw env today openFault _).1]; intro r hr; cases hr)).2
    rw [(MainWindow.create_db_mw env today openFault _).2.2] at h
    exact h

theorem FInanceTracker.step_add_db_ft (env : QtEnv) (w : Window) (date : QDate)
    (type category amount description : String) (db2 : Db)
    (hpos : (env.toDouble amount).leZero = false)
    (hins : Sql.insert w.db none date.toString type category (env.toDouble amount) description
      = .ok db2) :
    (FInanceTracker.step env w (.add date type category amount description none)).db = db2 := by
  simp only [FInanceTracker.step]
  rw [FInanceTracker.addTransaction_of_ok_ft env none _ db2 hpos hins, FInanceTracker.refresh_db_ft]

theorem MainWindow.step_add_db_mw (env : QtEnv) (w : Window) (date : QDate)
    (type category amount description : String) (db2 : Db)
    (hpos : (env.toDouble amount).leZero = false)
    (hins : Sql.insert w.db none date.toString type category (env.toDouble amount) description
      = .ok db2) :
    (MainWindow.step env w (.add date type category amount description none)).db = db2 := by
  simp only [MainWindow.step]
  rw [MainWindow.addTransaction_of_ok_mw env none _ db2 hpos hins, MainWindow.refresh_db_mw]

/-! ## The sample arithmetic -/

theorem roundDouble_natCast (n : Nat) (h : n < 2 ^ 53) :
    ∃ p, roundDouble (n : ℚ) = Double.num (n : ℚ) p := by
  unfold roundDouble
  have hc : ((n : ℚ)).den = 1 ∧ ((n : ℚ)).num.natAbs < 2 ^ 53 := by
    simpa using h
  rw [dif_pos hc]
  exact ⟨_, rfl⟩

theorem Double.ofNat_eq (n : Nat) (h : n < 2 ^ 53) :
    ∃ p, Double.ofNat n = Double.num (n : ℚ) p :=
  roundDouble_natCast n h

theorem Double.zero_eq : Double.zero = Double.ofNat 0 := by
  obtain ⟨p, h⟩ := Double.ofNat_eq 0 (by norm_num)
  rw [h]
  simp [Double.zero]

theorem Double.add_ofNat (a b : Nat) (ha : a < 2 ^ 53) (hb : b < 2 ^ 53) :
    Double.add (Double.ofNat a) (Double.ofNat b) = Double.ofNat (a + b) := by
  obtain ⟨pa, ea⟩ := Double.ofNat_eq a ha
  obtain ⟨pb, eb⟩ := Double.ofNat_eq b hb
  rw [ea, eb]
  show roundDouble ((a : ℚ) + (b : ℚ)) = roundDouble ((a + b : Nat) : ℚ)
  push_cast
  rfl

theorem Double.isNaN_ofNat (n : Nat) (h : n < 2 ^ 53) : (Double.ofNat n).isNaN = false := by
  obtain ⟨p, e⟩ := Double.ofNat_eq n h
  rw [e]
  rfl

theorem Sql.sumAsDouble_of (env : QtEnv) (key : Row → String) (rows : List Row) (k : String)
    (a : List Double) (x : Double) (ha : Sql.groupAmounts key rows k = a) (hne : a ≠ [])
    (hs : env.sum a = x) (hx : x.isNaN = false) : Sql.sumAsDouble env key rows k = x := by
  rw [Sql.sumAsDouble_eq, ha, hs]
  simp [hne, hx]

theorem sampleEnv_sum_one (a : Nat) (ha : a < 2 ^ 53) :
    sampleEnv.sum [Double.ofNat a] = Double.ofNat a := by
  show Double.add Double.zero (Double.ofNat a) = Double.ofNat a
  rw [Double.zero_eq, Double.add_ofNat 0 a (by norm_num) ha, Nat.zero_add]

theorem sampleEnv_sum_two (a b : Nat) (ha : a < 2 ^ 53) (hb : b < 2 ^ 53) :
    sampleEnv.sum [Double.ofNat a, Double.ofNat b] = Double.ofNat (a + b) := by
  show Double.add (Double.add Double.zero (Double.ofNat a)) (Double.ofNat b) = _
  rw [Double.zero_eq, Double.add_ofNat 0 a (by norm_num) ha, Nat.zero_add,
    Double.add_ofNat a b ha hb]

/-- The value 10808639105689191 / 2 ^ 55, the exact sum of the doubles nearest to 0.1 and to
0.2, is not a double: its numerator is odd and needs 54 bits. -/
theorem not_isDouble_tenths : ¬ isDouble (10808639105689191 / 2 ^ 55) := by
  rintro ⟨m, e, hm, he⟩
  rcases le_or_lt (-55) e with h | h
  · obtain ⟨k, hk⟩ := Int.eq_ofNat_of_zero_le (by omega : 0 ≤ e + 55)
    have he2 : e = (k : ℤ) - 55 := by omega
    rw [he2, zpow_sub₀ (by norm_num : (2 : ℚ) ≠ 0), zpow_natCast] at he
    have h2 : ((10808639105689191 : ℤ) : ℚ) = ((m * 2 ^ k : ℤ) : ℚ) := by
      push_cast
      have h55 : ((2 : ℚ) ^ (55 : ℤ)) = 2 ^ 55 := by norm_num
      rw [h55] at he
      field_simp at he
      linarith
    have h3 : (10808639105689191 : ℤ) = m * 2 ^ k := by exact_mod_cast h2
    cases k with
    | zero =>
      simp at h3
      rw [← h3] at hm
      norm_num at hm
    | succ k =>
      have hd : (2 : ℤ) ∣ 10808639105689191 := ⟨m * 2 ^ k, by rw [h3, pow_succ]; ring⟩
      have hz := Int.emod_eq_zero_of_dvd hd
      norm_num at hz
  · obtain ⟨k, hk⟩ := Int.eq_ofNat_of_zero_le (by omega : 0 ≤ -55 - e)
    have he2 : e = -55 - (k : ℤ) := by omega
    rw [he2, zpow_sub₀ (by norm_num : (2 : ℚ) ≠ 0), zpow_natCast] at he
    have h2 : ((10808639105689191 * 2 ^ k : ℤ) : ℚ) = ((m : ℤ) : ℚ) := by
      push_cast
      have h55 : ((2 : ℚ) ^ (-55 : ℤ)) = 1 / 2 ^ 55 := by norm_num
      rw [h55] at he
      field_simp at he
      linarith
    have h3 : (10808639105689191 * 2 ^ k : ℤ) = m := by exact_mod_cast h2
    have hp : (1 : ℤ) ≤ 2 ^ k := one_le_pow₀ (by norm_num)
    rw [← h3] at hm
    have hn : (10808639105689191 * 2 ^ k : ℤ).natAbs = 10808639105689191 * 2 ^ k := by
      rw [Int.natAbs_mul, Int.natAbs_pow]
      rfl
    rw [hn] at hm
    have hp2 : 1 ≤ 2 ^ k := Nat.one_le_two_pow
    nlinarith

theorem Double.isDouble_of_toRat (x : Double) (q : ℚ) (h : x.toRat = some q) :
    isDouble q := by
  cases x with
  | nan => simp [Double.toRat] at h
  | posInf => simp [Double.toRat] at h
  | negInf => simp [Double.toRat] at h
  | num r hr =>
    simp only [Double.toRat, Option.some.injEq] at h
    rw [← h]
    exact hr

theorem roundDouble_tenths :
    (roundDouble (10808639105689191 / 2 ^ 55)).toRat = some (5404319552844596 / 2 ^ 54) := by
  have hc : ¬ (((10808639105689191 / 2 ^ 55 : ℚ)).den = 1
      ∧ ((10808639105689191 / 2 ^ 55 : ℚ)).num.natAbs < 2 ^ 53) := by
    intro h
    apply not_isDouble_tenths
    refine ⟨(10808639105689191 / 2 ^ 55 : ℚ).num, 0, h.2, ?_⟩
    have hx := Rat.num_div_den (10808639105689191 / 2 ^ 55 : ℚ)
    rw [h.1] at hx
    simpa using hx.symm
  have habs : |(10808639105689191 / 2 ^ 55 : ℚ)| = 10808639105689191 / 2 ^ 55 :=
    abs_of_pos (by norm_num)
  have hlog : Int.log 2 (10808639105689191 / 2 ^ 55 : ℚ) = -2 := by
    apply le_antisymm
    · have := (Int.lt_zpow_iff_log_lt (by norm_num : 1 < 2)
        (by norm_num : (0 : ℚ) < 10808639105689191 / 2 ^ 55) (x := -1)).mp (by norm_num)
      omega
    · exact (Int.zpow_le_iff_le_log (by norm_num : 1 < 2)
        (by norm_num : (0 : ℚ) < 10808639105689191 / 2 ^ 55)).mp (by norm_num)
  have hy : (10808639105689191 / 2 ^ 55 : ℚ) / 2 ^ (-54 : ℤ) = 10808639105689191 / 2 := by
    norm_num
  have hf : ⌊(10808639105689191 / 2 : ℚ)⌋ = 5404319552844595 := by
    rw [Int.floor_eq_iff]
    norm_num
  unfold roundDouble
  rw [dif_neg hc]
  simp only [habs, hlog]
  norm_num [hy, hf, Double.toRat]
  rw [if_neg (by rw [abs_of_pos (by norm_num)]; norm_num)]

theorem roundDouble_tenth :
    (roundDouble (3602879701896397 / 2 ^ 55)).toRat = some (3602879701896397 / 2 ^ 55) := by
  have hc : ¬ (((3602879701896397 / 2 ^ 55 : ℚ)).den = 1
      ∧ ((3602879701896397 / 2 ^ 55 : ℚ)).num.natAbs < 2 ^ 53) := by
    intro h
    have hx := Rat.num_div_den (3602879701896397 / 2 ^ 55 : ℚ)
    rw [h.1] at hx
    have h2 : (((3602879701896397 / 2 ^ 55 : ℚ).num * 2 ^ 55 : ℤ) : ℚ)
        = ((3602879701896397 : ℤ) : ℚ) := by
      push_cast
      simp only [Nat.cast_one, div_one] at hx
      rw [hx]
      norm_num
    have h3 : (3602879701896397 / 2 ^ 55 : ℚ).num * 2 ^ 55 = (3602879701896397 : ℤ) := by
      exact_mod_cast h2
    omega
  have habs : |(3602879701896397 / 2 ^ 55 : ℚ)| = 3602879701896397 / 2 ^ 55 :=
    abs_of_pos (by norm_num)
  have hlog : Int.log 2 (3602879701896397 / 2 ^ 55 : ℚ) = -4 := by
    apply le_antisymm
    · have := (Int.lt_zpow_iff_log_lt (by norm_num : 1 < 2)
        (by norm_num : (0 : ℚ) < 3602879701896397 / 2 ^ 55) (x := -3)).mp (by norm_num)
      omega
    · exact (Int.zpow_le_iff_le_log (by norm_num : 1 < 2)
        (by norm_num : (0 : ℚ) < 3602879701896397 / 2 ^ 55)).mp (by norm_num)
  have hy : (3602879701896397 / 2 ^ 55 : ℚ) / 2 ^ (-56 : ℤ) = 7205759403792794 := by
    norm_num
  have hf : ⌊(7205759403792794 : ℚ)⌋ = 7205759403792794 := by
    rw [Int.floor_eq_iff]
    norm_num
  unfold roundDouble
  rw [dif_neg hc]
  simp only [habs, hlog]
  norm_num [hy, hf, Double.toRat]
  rw [if_neg (by rw [abs_of_pos (by norm_num)]; norm_num)]

theorem Double.eq_num_of_toRat (x : Double) (q : ℚ) (h : x.toRat = some q) :
    ∃ p, x = Double.num q p := by
  cases x with
  | nan => simp [Double.toRat] at h
  | posInf => simp [Double.toRat] at h
  | negInf => simp [Double.toRat] at h
  | num r hr =>
    simp only [Double.toRat, Option.some.injEq] at h
    subst h
    exact ⟨hr, rfl⟩

/-- The sample `SUM` of the doubles nearest to 0.1 and to 0.2 is 0.30000000000000004, the
double 5404319552844596 / 2 ^ 54. -/
theorem sampleEnv_sum_tenths :
    (sampleEnv.sum [tenth, fifth]).toRat = some (5404319552844596 / 2 ^ 54) := by
  have h0 : Double.add Double.zero tenth = roundDouble (3602879701896397 / 2 ^ 55) := by
    show roundDouble (0 + 3602879701896397 / 2 ^ 55) = _
    rw [zero_add]
  obtain ⟨p, hp⟩ := Double.eq_num_of_toRat _ _ roundDouble_tenth
  show (Double.add (Double.add Double.zero tenth) fifth).toRat = _
  rw [h0, hp]
  show (roundDouble (3602879701896397 / 2 ^ 55 + 3602879701896397 / 2 ^ 54)).toRat = _
  rw [show (3602879701896397 / 2 ^ 55 + 3602879701896397 / 2 ^ 54 : ℚ)
    = 10808639105689191 / 2 ^ 55 by norm_num]
  exact roundDouble_tenths

/-! ## The claims on samples -/

theorem FInanceTracker.laterFirst_db_ft :
    (run (FInanceTracker.step sampleEnv)
      (FInanceTracker.create sampleEnv ⟨2024, 1, 1⟩ none FInanceTracker.newFile) laterFirst).db
      = ⟨true, [⟨1, "2024-02-01", "Expense", "Food", Double.ofNat 50, "lunch"⟩,
                ⟨2, "2024-01-01", "Income", "Salary", Double.ofNat 1000, ""⟩], 2, false⟩ :=
  FInanceTracker.step_add_db_ft sampleEnv
    (FInanceTracker.step sampleEnv
      (FInanceTracker.create sampleEnv ⟨2024, 1, 1⟩ none FInanceTracker.newFile)
      (Op.add ⟨2024, 2, 1⟩ "Expense" "Food" "50" "lunch" none))
    ⟨2024, 1, 1⟩ "Income" "Salary" "1000" "" _ (by decide) rfl

theorem MainWindow.laterFirst_db_mw :
    (run (MainWindow.step sampleEnv)
      (MainWindow.create sampleEnv ⟨2024, 1, 1⟩ none MainWindow.newFile) laterFirst).db
      = ⟨true, [⟨1, "2024-02-01", "Expense", "Food", Double.ofNat 50, "lunch"⟩,
                ⟨2, "2024-01-01", "Income", "Salary", Double.ofNat 1000, ""⟩], 2, true⟩ :=
  MainWindow.step_add_db_mw sampleEnv
    (MainWindow.step sampleEnv
      (MainWindow.create sampleEnv ⟨2024, 1, 1⟩ none MainWindow.newFile)
      (Op.add ⟨2024, 2, 1⟩ "Expense" "Food" "50" "lunch" none))
    ⟨2024, 1, 1⟩ "Income" "Salary" "1000" "" _ (by decide) rfl

/-- Claim C6 at a failing input: after the adds 2024-02-01 then 2024-01-01,
`FInanceTracker::exportToCSV` writes the data row of 2024-02-01 before that of 2024-01-01,
which is not ascending by date; `MainWindow::exportToCSV` writes them ascending. -/
theorem exportToCSV_unsorted :
    (FInanceTracker.exportToCSV sampleEnv "out.csv" true
        (run (FInanceTracker.step sampleEnv)
          (FInanceTracker.create sampleEnv ⟨2024, 1, 1⟩ none FInanceTracker.newFile) laterFirst)).2
      = some ("Date,Type,Category,Amount,Description\n"
          ++ "2024-02-01,Expense,Food,50,lunch\n" ++ "2024-01-01,Income,Salary,1000,\n")
    ∧ ¬ ("2024-02-01" ≤ "2024-01-01")
    ∧ (MainWindow.exportToCSV sampleEnv "out.csv" true
        (run (MainWindow.step sampleEnv)
          (MainWindow.create sampleEnv ⟨2024, 1, 1⟩ none MainWindow.newFile) laterFirst)).2
      = some ("Date,Type,Category,Amount,Description\n"
          ++ "2024-01-01,Income,Salary,1000,\n" ++ "2024-02-01,Expense,Food,50,lunch\n") := by
  have hle : ¬ ("2024-02-01" ≤ "2024-01-01") := by
    rw [String.le_iff_toList_le]; decide
  refine ⟨?_, hle, ?_⟩
  · rw [FInanceTracker.exportToCSV_snd_ft _ _ _ (by decide) (by rw [FInanceTracker.laterFirst_db_ft]),
      FInanceTracker.laterFirst_db_ft]
    decide
  · rw [MainWindow.exportToCSV_snd_mw _ _ _ (by decide) (by rw [MainWindow.laterFirst_db_mw]),
      MainWindow.laterFirst_db_mw]
    have hs : Sql.orderByDate [⟨1, "2024-02-01", "Expense", "Food", Double.ofNat 50, "lunch"⟩,
        ⟨2, "2024-01-01", "Income", "Salary", Double.ofNat 1000, ""⟩]
        = [⟨2, "2024-01-01", "Income", "Salary", Double.ofNat 1000, ""⟩,
           ⟨1, "2024-02-01", "Expense", "Food", Double.ofNat 50, "lunch"⟩] := by
      simp [Sql.orderByDate, List.insertionSort, List.orderedInsert, hle]
    rw [hs]
    decide

/-- Claim C1 on a sample: the amount text "abc" is rejected and both records stay. -/
theorem addTransaction_rejects_nonpositive_witness :
    (sampleEnv.toDouble
        (sampleWindow.fillForm ⟨2024, 3, 1⟩ "Expense" "Food" "abc" "").amountEdit).leZero = true
    ∧ (FInanceTracker.addTransaction sampleEnv none
        (sampleWindow.fillForm ⟨2024, 3, 1⟩ "Expense" "Food" "abc" "")).db.rows.length = 2
    ∧ (MainWindow.addTransaction sampleEnv none
        (sampleWindow.fillForm ⟨2024, 3, 1⟩ "Expense" "Food" "abc" "")).messages
        = [⟨Icon.warning, "Invalid Input", "Please enter a valid amount."⟩] :=
  ⟨by decide,
   (addTransaction_rejects_nonpositive sampleEnv none
      (sampleWindow.fillForm ⟨2024, 3, 1⟩ "Expense" "Food" "abc" "") (by decide)).1.2.1,
   (addTransaction_rejects_nonpositive sampleEnv none
      (sampleWindow.fillForm ⟨2024, 3, 1⟩ "Expense" "Food" "abc" "") (by decide)).2.2.2⟩

theorem listing_countP (db : Db) (hopen : db.isOpen = true) (p : List QVariant → Bool) :
    (Sql.selectAllOrderByDateDesc db).countP p = db.rows.countP (fun r => p (Sql.star r)) := by
  simp only [Sql.selectAllOrderByDateDesc, Sql.result, hopen, if_true, List.countP_map]
  exact (Sql.orderByDateDesc_perm db.rows).countP_eq _

theorem FInanceTracker.duplicateAdds_db_ft :
    (run (FInanceTracker.step sampleEnv)
      (FInanceTracker.create sampleEnv ⟨2024, 1, 1⟩ none FInanceTracker.newFile) duplicateAdds).db
      = ⟨true, [⟨1, "2024-01-05", "Expense", "Food", Double.ofNat 50, "lunch"⟩,
                ⟨2, "2024-01-05", "Expense", "Food", Double.ofNat 50, "lunch"⟩], 2, false⟩ :=
  FInanceTracker.step_add_db_ft sampleEnv
    (FInanceTracker.step sampleEnv
      (FInanceTracker.create sampleEnv ⟨2024, 1, 1⟩ none FInanceTracker.newFile)
      (Op.add ⟨2024, 1, 5⟩ "Expense" "Food" "50" "lunch" none))
    ⟨2024, 1, 5⟩ "Expense" "Food" "50" "lunch" _ (by decide) rfl

theorem MainWindow.duplicateAdds_db_mw :
    (run (MainWindow.step sampleEnv)
      (MainWindow.create sampleEnv ⟨2024, 1, 1⟩ none MainWindow.newFile) duplicateAdds).db
      = ⟨true, [⟨1, "2024-01-05", "Expense", "Food", Double.ofNat 50, "lunch"⟩,
                ⟨2, "2024-01-05", "Expense", "Food", Double.ofNat 50, "lunch"⟩], 2, true⟩ :=
  MainWindow.step_add_db_mw sampleEnv
    (MainWindow.step sampleEnv
      (MainWindow.create sampleEnv ⟨2024, 1, 1⟩ none MainWindow.newFile)
      (Op.add ⟨2024, 1, 5⟩ "Expense" "Food" "50" "lunch" none))
    ⟨2024, 1, 5⟩ "Expense" "Food" "50" "lunch" _ (by decide) rfl

/-- Claim C2 as stated fails: after the same fields are added twice (amount 50 > 0, both
inserts succeed) the listing holds two records matching the added fields, not one. -/
theorem addTransaction_duplicate_fields :
    (sampleEnv.toDouble "50").pos = true
    ∧ (Sql.selectAllOrderByDateDesc
        (run (FInanceTracker.step sampleEnv)
          (FInanceTracker.create sampleEnv ⟨2024, 1, 1⟩ none FInanceTracker.newFile)
          duplicateAdds).db).countP
      (hasFields "2024-01-05" "Expense" "Food" (sampleEnv.toDouble "50") "lunch") = 2
    ∧ (Sql.selectAllOrderByDateDesc
        (run (MainWindow.step sampleEnv)
          (MainWindow.create sampleEnv ⟨2024, 1, 1⟩ none MainWindow.newFile)
          duplicateAdds).db).countP
      (hasFields "2024-01-05" "Expense" "Food" (sampleEnv.toDouble "50") "lunch") = 2 := by
  rw [FInanceTracker.duplicateAdds_db_ft, MainWindow.duplicateAdds_db_mw]
  rw [listing_countP _ rfl, listing_countP _ rfl]
  exact ⟨by decide, by decide, by decide⟩

/-- Claim C2, amended, on a sample: a third record is added to `sampleStore`. -/
theorem addTransaction_listing_witness :
    (sampleEnv.toDouble
        (sampleWindow.fillForm ⟨2024, 3, 1⟩ "Expense" "Bills" "75" "power").amountEdit).pos
      = true
    ∧ (FInanceTracker.addTransaction sampleEnv none
        (sampleWindow.fillForm ⟨2024, 3, 1⟩ "Expense" "Bills" "75" "power")).db
      = ⟨true, [⟨1, "2024-02-01", "Expense", "Food", Double.ofNat 50, "lunch"⟩,
                ⟨2, "2024-01-01", "Income", "Salary", Double.ofNat 1000, ""⟩,
                ⟨3, "2024-03-01", "Expense", "Bills", Double.ofNat 75, "power"⟩], 3, false⟩
    ∧ (Sql.selectAllOrderByDateDesc
          ⟨true, [⟨1, "2024-02-01", "Expense", "Food", Double.ofNat 50, "lunch"⟩,
                  ⟨2, "2024-01-01", "Income", "Salary", Double.ofNat 1000, ""⟩,
                  ⟨3, "2024-03-01", "Expense", "Bills", Double.ofNat 75, "power"⟩], 3, false⟩).countP
        (hasFields "2024-03-01" "Expense" "Bills" (Double.ofNat 75) "power")
      = (Sql.selectAllOrderByDateDesc sampleStore).countP
          (hasFields "2024-03-01" "Expense" "Bills" (Double.ofNat 75) "power") + 1 :=
  ⟨by decide,
   (addTransaction_listing sampleEnv none
      (sampleWindow.fillForm ⟨2024, 3, 1⟩ "Expense" "Bills" "75" "power")
      ⟨true, [⟨1, "2024-02-01", "Expense", "Food", Double.ofNat 50, "lunch"⟩,
              ⟨2, "2024-01-01", "Income", "Salary", Double.ofNat 1000, ""⟩,
              ⟨3, "2024-03-01", "Expense", "Bills", Double.ofNat 75, "power"⟩], 3, false⟩ (by decide) rfl).2.2.1.1,
   (addTransaction_listing sampleEnv none
      (sampleWindow.fillForm ⟨2024, 3, 1⟩ "Expense" "Bills" "75" "power")
      ⟨true, [⟨1, "2024-02-01", "Expense", "Food", Double.ofNat 50, "lunch"⟩,
              ⟨2, "2024-01-01", "Income", "Salary", Double.ofNat 1000, ""⟩,
              ⟨3, "2024-03-01", "Expense", "Bills", Double.ofNat 75, "power"⟩], 3, false⟩ (by decide) rfl).2.1⟩

/-- Claim C3 as stated fails: with no row selected `MainWindow::deleteTransaction` raises
the warning "No Selection" (`FInanceTracker::deleteTransaction` raises nothing). -/
theorem deleteTransaction_no_selection_warns :
    sampleWindow.currentRow < 0
    ∧ sampleWindow.messages = []
    ∧ (MainWindow.deleteTransaction sampleEnv none sampleWindow).messages
      = [⟨Icon.warning, "No Selection", "Please select a transaction to delete."⟩]
    ∧ (FInanceTracker.deleteTransaction sampleEnv none sampleWindow).messages = [] := by
  decide

/-- Claim C3, amended, on a sample: the first row of `sampleWindow` shows the id 1, which
`toInt` reads back, and its record is deleted; with no row current `FInanceTracker` does
nothing. -/
theorem deleteTransaction_effect_witness :
    0 ≤ (sampleWindow.selectRow 0).currentRow
    ∧ (sampleWindow.selectRow 0).itemText (sampleWindow.selectRow 0).currentRow 0
        = sampleEnv.intToString 1
    ∧ sampleEnv.toInt (sampleEnv.intToString 1) = 1
    ∧ (sampleWindow.selectRow 0).db.isOpen = true
    ∧ (FInanceTracker.deleteTransaction sampleEnv none (sampleWindow.selectRow 0)).db
      = ⟨true, [⟨2, "2024-01-01", "Income", "Salary", Double.ofNat 1000, ""⟩], 2, false⟩
    ∧ (MainWindow.deleteTransaction sampleEnv none (sampleWindow.selectRow 0)).db
      = ⟨true, [⟨2, "2024-01-01", "Income", "Salary", Double.ofNat 1000, ""⟩], 2, false⟩
    ∧ sampleWindow.currentRow < 0
    ∧ FInanceTracker.deleteTransaction sampleEnv none sampleWindow = sampleWindow :=
  ⟨by decide, by decide, by decide, rfl,
   ((deleteTransaction_effect sampleEnv none (sampleWindow.selectRow 0) 1).1
      (by decide) (by decide) (by decide) rfl rfl).1.1,
   ((deleteTransaction_effect sampleEnv none (sampleWindow.selectRow 0) 1).1
      (by decide) (by decide) (by decide) rfl rfl).1.2.2.1,
   by decide,
   ((deleteTransaction_effect sampleEnv none sampleWindow 1).2.2 (by decide)).1⟩

/-- An id outside the range of the 32-bit `int` is not read back: the row shows 3000000000,
`toInt` gives 0, the statement runs with id 0 and the record stays, in both classes and
without a message. -/
theorem deleteTransaction_wide_id :
    0 ≤ ((FInanceTracker.loadTransactions sampleEnv (windowOn wideStore [])).selectRow
        0).currentRow
    ∧ ((FInanceTracker.loadTransactions sampleEnv (windowOn wideStore [])).selectRow
        0).itemText 0 0 = sampleEnv.intToString 3000000000
    ∧ sampleEnv.intToString 3000000000 = "3000000000"
    ∧ sampleEnv.toInt "3000000000" = 0
    ∧ (FInanceTracker.deleteTransaction sampleEnv none
        ((FInanceTracker.loadTransactions sampleEnv (windowOn wideStore [])).selectRow 0)).db
      = wideStore
    ∧ (MainWindow.deleteTransaction sampleEnv none
        ((MainWindow.loadTransactions sampleEnv (windowOn wideStore [])).selectRow 0)).db
      = wideStore
    ∧ (MainWindow.deleteTransaction sampleEnv none
        ((MainWindow.loadTransactions sampleEnv (windowOn wideStore [])).selectRow 0)).messages
      = [] :=
  ⟨by decide, by decide, by decide, by decide, rfl, rfl, by decide⟩

theorem summaryAdds_db_ft :
    (run (FInanceTracker.step sampleEnv)
      (FInanceTracker.create sampleEnv ⟨2024, 1, 1⟩ none FInanceTracker.newFile) summaryAdds).db
      = summaryStore :=
  FInanceTracker.step_add_db_ft sampleEnv
    (FInanceTracker.step sampleEnv
      (FInanceTracker.create sampleEnv ⟨2024, 1, 1⟩ none FInanceTracker.newFile)
      (Op.add ⟨2024, 1, 1⟩ "Income" "Salary" "1000" "" none))
    ⟨2024, 1, 2⟩ "Expense" "Food" "400" "" _ (by decide) rfl

theorem summaryAdds_db_mw :
    (run (MainWindow.step sampleEnv)
      (MainWindow.create sampleEnv ⟨2024, 1, 1⟩ none MainWindow.newFile) summaryAdds).db
      = { summaryStore with amountNotNull := true } :=
  MainWindow.step_add_db_mw sampleEnv
    (MainWindow.step sampleEnv
      (MainWindow.create sampleEnv ⟨2024, 1, 1⟩ none MainWindow.newFile)
      (Op.add ⟨2024, 1, 1⟩ "Income" "Salary" "1000" "" none))
    ⟨2024, 1, 2⟩ "Expense" "Food" "400" "" _ (by decide) rfl

theorem run_snoc (step : Window → Op → Window) (w : Window) (ops : List Op) (op : Op) :
    run step w (ops ++ [op]) = step (run step w ops) op := by
  simp [run, List.foldl_append]

theorem furtherExpense_db_mw :
    (run (MainWindow.step sampleEnv)
      (MainWindow.create sampleEnv ⟨2024, 1, 1⟩ none MainWindow.newFile)
      (summaryAdds ++ [furtherExpense])).db = { summaryStore2 with amountNotNull := true } := by
  rw [run_snoc]
  exact MainWindow.step_add_db_mw sampleEnv _ ⟨2024, 1, 3⟩ "Expense" "Bills" "100" "" _
    (by decide) (by rw [summaryAdds_db_mw]; rfl)

/-- Claim C4, amended, on the samples of the claim: after adding Income 1000 and Expense 400
the totals are (1000, 400), and after a further Expense 100 they are (1000, 500). -/
theorem updateSummary_totals_witness :
    (run (FInanceTracker.step sampleEnv)
        (FInanceTracker.create sampleEnv ⟨2024, 1, 1⟩ none FInanceTracker.newFile)
        summaryAdds).db.isOpen = true
    ∧ (∀ r ∈ (run (FInanceTracker.step sampleEnv)
        (FInanceTracker.create sampleEnv ⟨2024, 1, 1⟩ none FInanceTracker.newFile) summaryAdds).db.rows,
        r.type = "Income" ∨ r.type = "Expense")
    ∧ ((FInanceTracker.updateSummary sampleEnv
          (run (FInanceTracker.step sampleEnv)
            (FInanceTracker.create sampleEnv ⟨2024, 1, 1⟩ none FInanceTracker.newFile)
            summaryAdds)).totalIncome = Double.ofNat 1000
      ∧ (FInanceTracker.updateSummary sampleEnv
          (run (FInanceTracker.step sampleEnv)
            (FInanceTracker.create sampleEnv ⟨2024, 1, 1⟩ none FInanceTracker.newFile)
            summaryAdds)).totalExpense = Double.ofNat 400)
    ∧ ((MainWindow.updateSummary sampleEnv
          (run (MainWindow.step sampleEnv)
            (MainWindow.create sampleEnv ⟨2024, 1, 1⟩ none MainWindow.newFile)
            (summaryAdds ++ [furtherExpense]))).totalIncome = Double.ofNat 1000
      ∧ (MainWindow.updateSummary sampleEnv
          (run (MainWindow.step sampleEnv)
            (MainWindow.create sampleEnv ⟨2024, 1, 1⟩ none MainWindow.newFile)
            (summaryAdds ++ [furtherExpense]))).totalExpense = Double.ofNat 500) := by
  have hopen1 : (run (FInanceTracker.step sampleEnv)
      (FInanceTracker.create sampleEnv ⟨2024, 1, 1⟩ none FInanceTracker.newFile)
      summaryAdds).db.isOpen = true := by rw [summaryAdds_db_ft]; rfl
  have hkind1 : ∀ r ∈ (run (FInanceTracker.step sampleEnv)
      (FInanceTracker.create sampleEnv ⟨2024, 1, 1⟩ none FInanceTracker.newFile) summaryAdds).db.rows,
      r.type = "Income" ∨ r.type = "Expense" := by rw [summaryAdds_db_ft]; decide
  have h1 := updateSummary_totals sampleEnv _ hopen1 hkind1
  have h2 := updateSummary_totals sampleEnv
    (run (MainWindow.step sampleEnv)
      (MainWindow.create sampleEnv ⟨2024, 1, 1⟩ none MainWindow.newFile)
      (summaryAdds ++ [furtherExpense]))
    (by rw [furtherExpense_db_mw]; rfl) (by rw [furtherExpense_db_mw]; decide)
  rw [summaryAdds_db_ft] at h1
  rw [furtherExpense_db_mw] at h2
  refine ⟨hopen1, hkind1, ⟨h1.1.1.trans ?_, h1.1.2.trans ?_⟩, h2.2.1.1.trans ?_,
    h2.2.1.2.trans ?_⟩
  · exact Sql.sumAsDouble_of sampleEnv Row.type summaryStore.rows "Income" [Double.ofNat 1000] _
      rfl (by simp) (sampleEnv_sum_one 1000 (by norm_num)) (Double.isNaN_ofNat _ (by norm_num))
  · exact Sql.sumAsDouble_of sampleEnv Row.type summaryStore.rows "Expense" [Double.ofNat 400] _
      rfl (by simp) (sampleEnv_sum_one 400 (by norm_num)) (Double.isNaN_ofNat _ (by norm_num))
  · exact Sql.sumAsDouble_of sampleEnv Row.type summaryStore2.rows "Income" [Double.ofNat 1000] _
      rfl (by simp) (sampleEnv_sum_one 1000 (by norm_num)) (Double.isNaN_ofNat _ (by norm_num))
  · exact Sql.sumAsDouble_of sampleEnv Row.type summaryStore2.rows "Expense"
      [Double.ofNat 400, Double.ofNat 100] _ rfl (by simp)
      (sampleEnv_sum_two 400 100 (by norm_num) (by norm_num))
      (Double.isNaN_ofNat _ (by norm_num))

/-- Claim C4 as stated fails: on the store holding the expenses 0.1 and 0.2 (the doubles
nearest to them) the sum of the stored amounts is 10808639105689191 / 2 ^ 55, which is not a
double, so `totalExpense` is not that sum, whatever summation the library runs; adding the
values one by one, as the sample does, gives 5404319552844596 / 2 ^ 54, the double
0.30000000000000004. -/
theorem updateSummary_total_not_sum :
    tenthsStore.isOpen = true
    ∧ (∀ r ∈ tenthsStore.rows, r.type = "Income" ∨ r.type = "Expense")
    ∧ exactSum tenthsStore.rows "Expense" = 10808639105689191 / 2 ^ 55
    ∧ (∀ env : QtEnv,
        (FInanceTracker.updateSummary env (windowOn tenthsStore [])).totalExpense.toRat
            ≠ some (exactSum tenthsStore.rows "Expense")
        ∧ (MainWindow.updateSummary env (windowOn tenthsStore [])).totalExpense.toRat
            ≠ some (exactSum tenthsStore.rows "Expense"))
    ∧ (FInanceTracker.updateSummary sampleEnv (windowOn tenthsStore [])).totalExpense.toRat
        = some (5404319552844596 / 2 ^ 54)
    ∧ (MainWindow.updateSummary sampleEnv (windowOn tenthsStore [])).totalExpense.toRat
        = some (5404319552844596 / 2 ^ 54) := by
  have hsum : exactSum tenthsStore.rows "Expense" = 10808639105689191 / 2 ^ 55 := by
    simp [exactSum, tenthsStore, tenth, fifth, Double.toRat]
    norm_num
  have hkind : ∀ r ∈ (windowOn tenthsStore []).db.rows,
      r.type = "Income" ∨ r.type = "Expense" := by decide
  have hs : Sql.sumAsDouble sampleEnv Row.type tenthsStore.rows "Expense"
      = sampleEnv.sum [tenth, fifth] := by
    obtain ⟨p, hp⟩ := Double.eq_num_of_toRat _ _ sampleEnv_sum_tenths
    exact Sql.sumAsDouble_of sampleEnv Row.type tenthsStore.rows "Expense" [tenth, fifth] _
      rfl (by simp) rfl (by rw [hp]; rfl)
  refine ⟨rfl, hkind, hsum, ?_, ?_, ?_⟩
  · intro env
    rw [hsum]
    constructor
    · intro h
      exact not_isDouble_tenths (Double.isDouble_of_toRat _ _ h)
    · intro h
      exact not_isDouble_tenths (Double.isDouble_of_toRat _ _ h)
  · rw [(updateSummary_reads sampleEnv (windowOn tenthsStore []) rfl hkind).1.2]
    exact (congrArg Double.toRat hs).trans sampleEnv_sum_tenths
  · rw [(updateSummary_reads sampleEnv (windowOn tenthsStore []) rfl hkind).2.2]
    exact (congrArg Double.toRat hs).trans sampleEnv_sum_tenths

theorem chartAdds_db_ft :
    (run (FInanceTracker.step sampleEnv)
      (FInanceTracker.create sampleEnv ⟨2024, 1, 1⟩ none FInanceTracker.newFile) chartAdds).db
      = chartStore := by
  have h1 : (FInanceTracker.step sampleEnv
      (FInanceTracker.create sampleEnv ⟨2024, 1, 1⟩ none FInanceTracker.newFile)
      (Op.add ⟨2024, 1, 1⟩ "Expense" "Food" "50" "" none)).db
      = ⟨true, [⟨1, "2024-01-01", "Expense", "Food", Double.ofNat 50, ""⟩], 1, false⟩ := rfl
  have h2 := FInanceTracker.step_add_db_ft sampleEnv
    (FInanceTracker.step sampleEnv
      (FInanceTracker.create sampleEnv ⟨2024, 1, 1⟩ none FInanceTracker.newFile)
      (Op.add ⟨2024, 1, 1⟩ "Expense" "Food" "50" "" none))
    ⟨2024, 1, 2⟩ "Expense" "Food" "25" ""
    ⟨true, [⟨1, "2024-01-01", "Expense", "Food", Double.ofNat 50, ""⟩,
            ⟨2, "2024-01-02", "Expense", "Food", Double.ofNat 25, ""⟩], 2, false⟩ (by decide)
    (by rw [h1]; rfl)
  have h3 := FInanceTracker.step_add_db_ft sampleEnv _ ⟨2024, 1, 3⟩ "Expense" "Transport" "10" ""
    ⟨true, [⟨1, "2024-01-01", "Expense", "Food", Double.ofNat 50, ""⟩,
            ⟨2, "2024-01-02", "Expense", "Food", Double.ofNat 25, ""⟩,
            ⟨3, "2024-01-03", "Expense", "Transport", Double.ofNat 10, ""⟩], 3, false⟩ (by decide)
    (by rw [h2]; rfl)
  exact FInanceTracker.step_add_db_ft sampleEnv _ ⟨2024, 1, 4⟩ "Income" "Salary" "1000" ""
    chartStore (by decide) (by rw [h3]; rfl)

theorem chartAdds_db_mw :
    (run (MainWindow.step sampleEnv)
      (MainWindow.create sampleEnv ⟨2024, 1, 1⟩ none MainWindow.newFile) chartAdds).db
      = { chartStore with amountNotNull := true } := by
  have h1 : (MainWindow.step sampleEnv
      (MainWindow.create sampleEnv ⟨2024, 1, 1⟩ none MainWindow.newFile)
      (Op.add ⟨2024, 1, 1⟩ "Expense" "Food" "50" "" none)).db
      = ⟨true, [⟨1, "2024-01-01", "Expense", "Food", Double.ofNat 50, ""⟩], 1, true⟩ := rfl
  have h2 := MainWindow.step_add_db_mw sampleEnv
    (MainWindow.step sampleEnv
      (MainWindow.create sampleEnv ⟨2024, 1, 1⟩ none MainWindow.newFile)
      (Op.add ⟨2024, 1, 1⟩ "Expense" "Food" "50" "" none))
    ⟨2024, 1, 2⟩ "Expense" "Food" "25" ""
    ⟨true, [⟨1, "2024-01-01", "Expense", "Food", Double.ofNat 50, ""⟩,
            ⟨2, "2024-01-02", "Expense", "Food", Double.ofNat 25, ""⟩], 2, true⟩ (by decide)
    (by rw [h1]; rfl)
  have h3 := MainWindow.step_add_db_mw sampleEnv _ ⟨2024, 1, 3⟩ "Expense" "Transport" "10" ""
    ⟨true, [⟨1, "2024-01-01", "Expense", "Food", Double.ofNat 50, ""⟩,
            ⟨2, "2024-01-02", "Expense", "Food", Double.ofNat 25, ""⟩,
            ⟨3, "2024-01-03", "Expense", "Transport", Double.ofNat 10, ""⟩], 3, true⟩ (by decide)
    (by rw [h2]; rfl)
  exact MainWindow.step_add_db_mw sampleEnv _ ⟨2024, 1, 4⟩ "Income" "Salary" "1000" ""
    { chartStore with amountNotNull := true } (by decide) (by rw [h3]; rfl)

theorem chartStore_query :
    Sql.groupSum sampleEnv Row.category (chartStore.rows.filter (fun r => r.type = "Expense"))
      = [[QVariant.text "Food", QVariant.real (Double.ofNat 75)],
         [QVariant.text "Transport", QVariant.real (Double.ofNat 10)]] := by
  have hle : "Food" ≤ "Transport" := by rw [String.le_iff_toList_le]; decide
  have hk : Sql.groupKeys Row.category (chartStore.rows.filter (fun r => r.type = "Expense"))
      = ["Food", "Transport"] := by
    have hd : ((chartStore.rows.filter (fun r => r.type = "Expense")).map Row.category).dedup
        = ["Food", "Transport"] := by decide
    unfold Sql.groupKeys
    rw [hd]
    simp [List.insertionSort, List.orderedInsert, hle]
  have hF : Sql.sumAmount sampleEnv Row.category
      (chartStore.rows.filter (fun r => r.type = "Expense")) "Food"
      = QVariant.real (Double.ofNat 75) := by
    have ha : Sql.groupAmounts Row.category
        (chartStore.rows.filter (fun r => r.type = "Expense")) "Food"
        = [Double.ofNat 50, Double.ofNat 25] := rfl
    unfold Sql.sumAmount
    rw [ha, sampleEnv_sum_two 50 25 (by norm_num) (by norm_num)]
    simp [Sql.realValue, Double.isNaN_ofNat]
  have hT : Sql.sumAmount sampleEnv Row.category
      (chartStore.rows.filter (fun r => r.type = "Expense")) "Transport"
      = QVariant.real (Double.ofNat 10) := by
    have ha : Sql.groupAmounts Row.category
        (chartStore.rows.filter (fun r => r.type = "Expense")) "Transport"
        = [Double.ofNat 10] := rfl
    unfold Sql.sumAmount
    rw [ha, sampleEnv_sum_one 10 (by norm_num)]
    simp [Sql.realValue, Double.isNaN_ofNat]
  unfold Sql.groupSum
  rw [hk]
  simp only [List.map_cons, List.map_nil, hF, hT]

/-- Claim C5, amended, on the sample of the claim: after adding Expense/Food 50, Expense/Food
25, Expense/Transport 10 and one income, the chart has the categories of the theorem, and
they are the slices Food 75 and Transport 10; the income record gives none. -/
theorem updateChart_breakdown_witness :
    (run (MainWindow.step sampleEnv)
        (MainWindow.create sampleEnv ⟨2024, 1, 1⟩ none MainWindow.newFile) chartAdds).db.isOpen
      = true
    ∧ (∃ cats : List String,
        cats.Nodup
        ∧ (∀ c, c ∈ cats ↔ (∃ r ∈ chartStore.rows, r.type = "Expense" ∧ r.category = c)
            ∧ (Sql.sumAsDouble sampleEnv Row.category
                (chartStore.rows.filter (fun r => r.type = "Expense")) c).isFinite = true)
        ∧ (MainWindow.updateChart sampleEnv
            (run (MainWindow.step sampleEnv)
              (MainWindow.create sampleEnv ⟨2024, 1, 1⟩ none MainWindow.newFile)
              chartAdds)).pieChart
          = [cats.map (fun c =>
              (c ++ " ($" ++ sampleEnv.numberF2
                  (Sql.sumAsDouble sampleEnv Row.category
                    (chartStore.rows.filter (fun r => r.type = "Expense")) c) ++ ")",
               (Sql.sumAsDouble sampleEnv Row.category
                  (chartStore.rows.filter (fun r => r.type = "Expense")) c).abs))])
    ∧ (MainWindow.updateChart sampleEnv
        (run (MainWindow.step sampleEnv)
          (MainWindow.create sampleEnv ⟨2024, 1, 1⟩ none MainWindow.newFile) chartAdds)).pieChart
      = [[("Food ($75.00)", Double.ofNat 75), ("Transport ($10.00)", Double.ofNat 10)]]
    ∧ (FInanceTracker.updateChart sampleEnv
        (run (FInanceTracker.step sampleEnv)
          (FInanceTracker.create sampleEnv ⟨2024, 1, 1⟩ none FInanceTracker.newFile)
          chartAdds)).pieChart
      = [[("Food (Rp75)", Double.ofNat 75), ("Transport (Rp10)", Double.ofNat 10)]] := by
  have hopen : (run (MainWindow.step sampleEnv)
      (MainWindow.create sampleEnv ⟨2024, 1, 1⟩ none MainWindow.newFile) chartAdds).db.isOpen
      = true := by rw [chartAdds_db_mw]; rfl
  have h := updateChart_breakdown sampleEnv _ hopen
  rw [chartAdds_db_mw] at h
  obtain ⟨cats, h1, h2, _, h4, _⟩ := h
  have ho : chartStore.isOpen = true := rfl
  refine ⟨hopen, ⟨cats, h1, h2, h4⟩, ?_, ?_⟩
  · rw [MainWindow.updateChart_eq_mw]
    simp only [Sql.selectExpenseSumByCategory, Sql.result]
    rw [chartAdds_db_mw]
    simp only [ho, if_true]
    rw [chartStore_query]
    decide
  · rw [FInanceTracker.updateChart_eq_ft]
    simp only [Sql.selectExpenseSumByCategory, Sql.result]
    rw [chartAdds_db_ft]
    simp only [ho, if_true]
    rw [chartStore_query]
    decide

/-- Claim C5 as stated fails: after the add of Expense/Food with the amount text "inf" (it
passes the guard `amount <= 0`, and the insert succeeds) the category Food has an Expense
record, its `SUM(amount)` is infinite, `QPieSeries::append` adds no slice for it, and the
chart of both classes has no entry at all. -/
theorem updateChart_no_slice :
    (sampleEnv.toDouble "inf").leZero = false
    ∧ (run (FInanceTracker.step sampleEnv)
        (FInanceTracker.create sampleEnv ⟨2024, 1, 1⟩ none FInanceTracker.newFile)
        [infAdd]).db.rows = [⟨1, "2024-01-01", "Expense", "Food", Double.posInf, ""⟩]
    ∧ (FInanceTracker.updateChart sampleEnv
        (run (FInanceTracker.step sampleEnv)
          (FInanceTracker.create sampleEnv ⟨2024, 1, 1⟩ none FInanceTracker.newFile)
          [infAdd])).pieChart = [[]]
    ∧ (run (MainWindow.step sampleEnv)
        (MainWindow.create sampleEnv ⟨2024, 1, 1⟩ none MainWindow.newFile)
        [infAdd]).db.rows = [⟨1, "2024-01-01", "Expense", "Food", Double.posInf, ""⟩]
    ∧ (MainWindow.updateChart sampleEnv
        (run (MainWindow.step sampleEnv)
          (MainWindow.create sampleEnv ⟨2024, 1, 1⟩ none MainWindow.newFile)
          [infAdd])).pieChart = [[]] := by
  decide

/-- Claim C10 at a failing input: on a new file, the add with the amount text "nan" passes
the guard `amount <= 0` of `FInanceTracker::addTransaction` (a NaN compares false), the
insert succeeds, and the stored record has the amount NULL, which is not > 0; the table
shows it as 0.  `MainWindow`, whose table declares `amount REAL NOT NULL`, refuses the same
add with a database error and stores nothing. -/
theorem addTransaction_stores_nan :
    (sampleEnv.toDouble "nan").leZero = false
    ∧ (run (FInanceTracker.step sampleEnv)
        (FInanceTracker.create sampleEnv ⟨2024, 1, 1⟩ none FInanceTracker.newFile)
        [nanAdd]).db.rows = [⟨1, "2024-03-01", "Expense", "Food", Double.nan, "lunch"⟩]
    ∧ (∃ r ∈ (run (FInanceTracker.step sampleEnv)
        (FInanceTracker.create sampleEnv ⟨2024, 1, 1⟩ none FInanceTracker.newFile)
        [nanAdd]).db.rows, r.amount.pos = false)
    ∧ (run (FInanceTracker.step sampleEnv)
        (FInanceTracker.create sampleEnv ⟨2024, 1, 1⟩ none FInanceTracker.newFile)
        [nanAdd]).transactionTable = [["1", "2024-03-01", "Expense", "Food", "Rp0", "lunch"]]
    ∧ (run (FInanceTracker.step sampleEnv)
        (FInanceTracker.create sampleEnv ⟨2024, 1, 1⟩ none FInanceTracker.newFile)
        [nanAdd]).messages = []
    ∧ (run (MainWindow.step sampleEnv)
        (MainWindow.create sampleEnv ⟨2024, 1, 1⟩ none MainWindow.newFile)
        [nanAdd]).db.rows = []
    ∧ (run (MainWindow.step sampleEnv)
        (MainWindow.create sampleEnv ⟨2024, 1, 1⟩ none MainWindow.newFile)
        [nanAdd]).messages = [⟨Icon.critical, "Database Error", Sql.notNullText⟩] := by
  decide

/-- Claim C7 on the sample window. -/
theorem loadTransactions_sorted_perm_witness :
    sampleWindow.db.isOpen = true
    ∧ ∃ l : List Row,
        l.Perm sampleStore.rows
        ∧ l.Sorted (fun a b => b.date ≤ a.date)
        ∧ (MainWindow.loadTransactions sampleEnv sampleWindow).transactionTable = l.map (fun r =>
            [sampleEnv.intToString r.id, r.date, r.type, r.category,
             sampleEnv.numberF2 (if r.amount.isNaN then Double.zero else r.amount),
             r.description]) := by
  obtain ⟨l, h1, h2, _, _, h5⟩ := loadTransactions_sorted_perm sampleEnv sampleWindow rfl
  exact ⟨rfl, l, h1, h2, h5⟩

/-- Claim C8 on the sample window, and a description with a comma. -/
theorem exportToCSV_text_witness :
    ("out.csv" : String) ≠ ""
    ∧ sampleWindow.db.isOpen = true
    ∧ (FInanceTracker.exportToCSV sampleEnv "out.csv" true sampleWindow).2
        = some ("Date,Type,Category,Amount,Description\n"
            ++ "2024-02-01,Expense,Food,50,lunch\n" ++ "2024-01-01,Income,Salary,1000,\n")
    ∧ 5 < fieldCount ("2024-02-01" ++ "," ++ "Expense" ++ "," ++ "Food" ++ ","
          ++ (if (Double.ofNat 50).isNaN then "" else sampleEnv.doubleToString (Double.ofNat 50))
          ++ "," ++ "milk, eggs" ++ "\n") := by
  have h := exportToCSV_text sampleEnv "out.csv" sampleWindow (by decide) rfl
  refine ⟨by decide, rfl, h.1.trans (by decide), ?_⟩
  exact h.2.2 ⟨7, "2024-02-01", "Expense", "Food", Double.ofNat 50, "milk, eggs"⟩ (by decide)

/-! ## Failures and messages -/

/-- The failures that the code reports: a failed `db.open()` in both classes and a failed
insert in `MainWindow`. -/
theorem reported_failures (env : QtEnv) (fault : Option String) (w : Window) (e : String) :
    (FInanceTracker.setupDatabase (some e) w).messages
        = w.messages ++ [⟨Icon.critical, "Database Error", e⟩]
    ∧ (MainWindow.setupDatabase (some e) w).messages
        = w.messages ++ [⟨Icon.critical, "Database Error", "Failed to open database: " ++ e⟩]
    ∧ ((env.toDouble w.amountEdit).leZero = false →
        Sql.insert w.db fault w.dateEdit.toString w.typeCombo w.categoryCombo
          (env.toDouble w.amountEdit) w.descriptionEdit = .error e →
        (MainWindow.addTransaction env fault w).messages
          = w.messages ++ [⟨Icon.critical, "Database Error", e⟩]) := by
  refine ⟨rfl, rfl, ?_⟩
  intro hpos hins
  rw [MainWindow.addTransaction_of_error_mw env fault w e hpos hins]
  rfl

/-- Claim C11 at a failing input: the INSERT and the DELETE fail with "database is locked".
`FInanceTracker::addTransaction` and both `deleteTransaction` slots leave the window as it
was, no message shown; only `MainWindow::addTransaction` shows the error. -/
theorem persistence_failure_silent :
    (sampleEnv.toDouble
        (sampleWindow.fillForm ⟨2024, 3, 1⟩ "Expense" "Food" "50" "lunch").amountEdit).pos = true
    ∧ Sql.insert sampleStore lockedFault "2024-03-01" "Expense" "Food" (Double.ofNat 50) "lunch"
        = .error "database is locked"
    ∧ FInanceTracker.addTransaction sampleEnv lockedFault
        (sampleWindow.fillForm ⟨2024, 3, 1⟩ "Expense" "Food" "50" "lunch")
        = sampleWindow.fillForm ⟨2024, 3, 1⟩ "Expense" "Food" "50" "lunch"
    ∧ (sampleWindow.fillForm ⟨2024, 3, 1⟩ "Expense" "Food" "50" "lunch").messages = []
    ∧ (MainWindow.addTransaction sampleEnv lockedFault
        (sampleWindow.fillForm ⟨2024, 3, 1⟩ "Expense" "Food" "50" "lunch")).messages
        = [⟨Icon.critical, "Database Error", "database is locked"⟩]
    ∧ 0 ≤ (sampleWindow.selectRow 0).currentRow
    ∧ Sql.delete sampleStore lockedFault 1 = .error "database is locked"
    ∧ FInanceTracker.deleteTransaction sampleEnv lockedFault (sampleWindow.selectRow 0)
        = sampleWindow.selectRow 0
    ∧ MainWindow.deleteTransaction sampleEnv lockedFault (sampleWindow.selectRow 0)
        = sampleWindow.selectRow 0 := by
  have hgt : (sampleEnv.toDouble
      (sampleWindow.fillForm ⟨2024, 3, 1⟩ "Expense" "Food" "50" "lunch").amountEdit).pos
      = true := by
    decide
  have hpos := Double.leZero_of_pos _ hgt
  have hrow : 0 ≤ (sampleWindow.selectRow 0).currentRow := by decide
  refine ⟨hgt, rfl, ?_, rfl, ?_, hrow, rfl, ?_, ?_⟩
  · exact FInanceTracker.addTransaction_of_error_ft sampleEnv lockedFault _
      "database is locked" hpos rfl
  · rw [MainWindow.addTransaction_of_error_mw sampleEnv lockedFault _
      "database is locked" hpos rfl]
    rfl
  · exact FInanceTracker.deleteTransaction_of_error_ft sampleEnv lockedFault _
      "database is locked" hrow rfl
  · exact MainWindow.deleteTransaction_of_error_mw sampleEnv lockedFault _
      "database is locked" hrow rfl

/-! ## Idempotence of the refresh -/

/-- Claim C12: for every store and every prior state of the widgets and fields, running
`loadTransactions` a second time, or `updateSummary` a second time, changes nothing: the
window, and so the table rows and (totalIncome, totalExpense), is the same as after the
first run; and the rows and totals do not depend on what the table and the totals held
before, so rows are not duplicated and totals are not accumulated. -/
theorem refresh_idempotent (env : QtEnv) (w : Window) (table : List (List String))
    (row : Int) (income expense : Double) :
    (FInanceTracker.loadTransactions env (FInanceTracker.loadTransactions env w)
        = FInanceTracker.loadTransactions env w
      ∧ (FInanceTracker.loadTransactions env
          { w with transactionTable := table, currentRow := row }).transactionTable
        = (FInanceTracker.loadTransactions env w).transactionTable
      ∧ FInanceTracker.updateSummary env (FInanceTracker.updateSummary env w)
        = FInanceTracker.updateSummary env w
      ∧ (FInanceTracker.updateSummary env
            { w with totalIncome := income, totalExpense := expense }).totalIncome
          = (FInanceTracker.updateSummary env w).totalIncome
      ∧ (FInanceTracker.updateSummary env
            { w with totalIncome := income, totalExpense := expense }).totalExpense
          = (FInanceTracker.updateSummary env w).totalExpense)
    ∧ (MainWindow.loadTransactions env (MainWindow.loadTransactions env w)
        = MainWindow.loadTransactions env w
      ∧ (MainWindow.loadTransactions env
          { w with transactionTable := table, currentRow := row }).transactionTable
        = (MainWindow.loadTransactions env w).transactionTable
      ∧ MainWindow.updateSummary env (MainWindow.updateSummary env w)
        = MainWindow.updateSummary env w
      ∧ (MainWindow.updateSummary env
            { w with totalIncome := income, totalExpense := expense }).totalIncome
          = (MainWindow.updateSummary env w).totalIncome
      ∧ (MainWindow.updateSummary env
            { w with totalIncome := income, totalExpense := expense }).totalExpense
          = (MainWindow.updateSummary env w).totalExpense) := by
  simp only [FInanceTracker.loadTransactions_eq_ft, FInanceTracker.updateSummary_eq_ft,
    MainWindow.loadTransactions_eq_mw, MainWindow.updateSummary_eq_mw, and_self]

/-! ## Date text and chronology -/

theorem chars_cons_lt_cons (a b : Char) (l l2 : List Char) :
    a :: l < b :: l2 ↔ a < b ∨ (a = b ∧ l < l2) := by
  constructor
  · intro h
    cases h with
    | cons h => exact Or.inr ⟨rfl, h⟩
    | rel h => exact Or.inl h
  · rintro (h | ⟨rfl, h⟩)
    · exact List.Lex.rel h
    · exact List.Lex.cons h

theorem chars_nil_lt_nil : ¬ (([] : List Char) < []) := by
  intro h; cases h

theorem digit_fin_lt : ∀ a b : Fin 10,
    (Char.ofNat (48 + a.val) < Char.ofNat (48 + b.val) ↔ a < b)
    ∧ (Char.ofNat (48 + a.val) = Char.ofNat (48 + b.val) ↔ a = b) := by
  decide

theorem digitChar_lt (n m : Nat) : digitChar n < digitChar m ↔ n % 10 < m % 10 := by
  have h := (digit_fin_lt ⟨n % 10, Nat.mod_lt _ (by norm_num)⟩ ⟨m % 10, Nat.mod_lt _ (by norm_num)⟩).1
  simpa [digitChar] using h

theorem digitChar_eq (n m : Nat) : digitChar n = digitChar m ↔ n % 10 = m % 10 := by
  have h := (digit_fin_lt ⟨n % 10, Nat.mod_lt _ (by norm_num)⟩ ⟨m % 10, Nat.mod_lt _ (by norm_num)⟩).2
  simpa [digitChar] using h

theorem lex_step (u v : Nat) :
    u < v ↔ u / 10 < v / 10 ∨ (u / 10 = v / 10 ∧ u % 10 < v % 10) := by
  omega

theorem eq_step (u v : Nat) : u = v ↔ u / 10 = v / 10 ∧ u % 10 = v % 10 := by
  omega

theorem four_lt (y z : Nat) (hy : y < 10000) (hz : z < 10000) :
    (y / 1000 % 10 < z / 1000 % 10 ∨ (y / 1000 % 10 = z / 1000 % 10 ∧
      (y / 100 % 10 < z / 100 % 10 ∨ (y / 100 % 10 = z / 100 % 10 ∧
        (y / 10 % 10 < z / 10 % 10 ∨ (y / 10 % 10 = z / 10 % 10 ∧ y % 10 < z % 10))))))
      ↔ y < z := by
  have s1 := lex_step y z
  have s2 := lex_step (y / 10) (z / 10)
  have s3 := lex_step (y / 100) (z / 100)
  have q1 := eq_step (y / 10) (z / 10)
  have q2 := eq_step (y / 100) (z / 100)
  rw [Nat.div_div_eq_div_mul, Nat.div_div_eq_div_mul] at s2 s3 q1 q2
  norm_num at s2 s3 q1 q2
  have m1 : y / 1000 % 10 = y / 1000 := Nat.mod_eq_of_lt (by omega)
  have m2 : z / 1000 % 10 = z / 1000 := Nat.mod_eq_of_lt (by omega)
  rw [m1, m2, s1, s2, q1, s3, q2]
  generalize (y / 1000 < z / 1000) = A3
  generalize (y / 1000 = z / 1000) = E3
  generalize (y / 100 % 10 < z / 100 % 10) = A2
  generalize (y / 100 % 10 = z / 100 % 10) = E2
  generalize (y / 10 % 10 < z / 10 % 10) = A1
  generalize (y / 10 % 10 = z / 10 % 10) = E1
  generalize (y % 10 < z % 10) = A0
  clear s1 s2 s3 q1 q2 m1 m2 hy hz
  tauto

theorem four_eq (y z : Nat) (hy : y < 10000) (hz : z < 10000) :
    (y / 1000 % 10 = z / 1000 % 10 ∧ y / 100 % 10 = z / 100 % 10 ∧ y / 10 % 10 = z / 10 % 10
      ∧ y % 10 = z % 10) ↔ y = z := by
  have e1 : y / 100 / 10 = y / 1000 := Nat.div_div_eq_div_mul y 100 10
  have e2 : y / 10 / 10 = y / 100 := Nat.div_div_eq_div_mul y 10 10
  have e3 : z / 100 / 10 = z / 1000 := Nat.div_div_eq_div_mul z 100 10
  have e4 : z / 10 / 10 = z / 100 := Nat.div_div_eq_div_mul z 10 10
  omega

theorem two_lt (y z : Nat) (hy : y < 100) (hz : z < 100) :
    (y / 10 % 10 < z / 10 % 10 ∨ (y / 10 % 10 = z / 10 % 10 ∧ y % 10 < z % 10)) ↔ y < z := by
  omega

theorem two_eq (y z : Nat) (hy : y < 100) (hz : z < 100) :
    (y / 10 % 10 = z / 10 % 10 ∧ y % 10 = z % 10) ↔ y = z := by
  omega

/-- Fixed-width date texts compare as the dates do. -/
theorem toString_lt_of_bounds (a b : QDate)
    (ha : a.year < 10000 ∧ a.month < 100 ∧ a.day < 100)
    (hb : b.year < 10000 ∧ b.month < 100 ∧ b.day < 100) :
    a.toString < b.toString ↔ a.earlier b := by
  rw [String.lt_iff_toList_lt]
  simp only [QDate.toString, String.toList, yyyy, if_pos ha.1, if_pos hb.1, twoDigits,
    List.cons_append, List.nil_append,
    chars_cons_lt_cons, chars_nil_lt_nil, digitChar_lt, digitChar_eq, lt_irrefl, true_and,
    and_false, or_false, false_or]
  unfold QDate.earlier
  rw [← four_lt a.year b.year ha.1 hb.1, ← four_eq a.year b.year ha.1 hb.1,
    ← two_lt a.month b.month ha.2.1 hb.2.1, ← two_eq a.month b.month ha.2.1 hb.2.1,
    ← two_lt a.day b.day ha.2.2 hb.2.2]
  tauto

/-- Claim C13: for every two calendar dates with four-digit years, the `yyyy-MM-dd` text
that `addTransaction` stores for the first is lexicographically less than the text for the
second exactly when the first date is chronologically earlier; so the text comparison of
`ORDER BY date` (`≤` on the texts) orders the records chronologically. -/
theorem toString_lt_iff_earlier (d1 d2 : QDate) (h1 : d1.fourDigitYear)
    (h2 : d2.fourDigitYear) :
    (d1.toString < d2.toString ↔ d1.earlier d2)
    ∧ (d1.toString ≤ d2.toString ↔ ¬ d2.earlier d1) := by
  have b1 : d1.year < 10000 ∧ d1.month < 100 ∧ d1.day < 100 := by
    unfold QDate.fourDigitYear at h1; omega
  have b2 : d2.year < 10000 ∧ d2.month < 100 ∧ d2.day < 100 := by
    unfold QDate.fourDigitYear at h2; omega
  refine ⟨toString_lt_of_bounds d1 d2 b1 b2, ?_⟩
  rw [← not_lt, toString_lt_of_bounds d2 d1 b2 b1]

/-- Claim C13 on a sample: 31 January 2024 and 1 February 2024. -/
theorem toString_lt_iff_earlier_witness :
    (⟨2024, 1, 31⟩ : QDate).fourDigitYear
    ∧ (⟨2024, 2, 1⟩ : QDate).fourDigitYear
    ∧ (⟨2024, 1, 31⟩ : QDate).toString = "2024-01-31"
    ∧ (⟨2024, 2, 1⟩ : QDate).toString = "2024-02-01"
    ∧ ((⟨2024, 1, 31⟩ : QDate).toString < (⟨2024, 2, 1⟩ : QDate).toString
        ↔ (⟨2024, 1, 31⟩ : QDate).earlier ⟨2024, 2, 1⟩) :=
  ⟨by unfold QDate.fourDigitYear; decide, by unfold QDate.fourDigitYear; decide, by decide,
   by decide,
   (toString_lt_iff_earlier ⟨2024, 1, 31⟩ ⟨2024, 2, 1⟩ (by unfold QDate.fourDigitYear; decide)
      (by unfold QDate.fourDigitYear; decide)).1⟩

end Finance
